import Mathlib

/-!
Verification of the modCA predator/prey cellular-automaton backend.

This file shallowly embeds the simulation engine (`backend/app/simulation.py`),
the grid initializer and neighbor helpers (`backend/app/grid.py`) and the
constants (`backend/app/constants.py`) into Lean, and proves or refutes the
frozen claims about the specification.

Randomness is modelled by an explicit oracle (`RNG`): a stream of rational
numbers standing for the successive results of Python's `random.random()`,
and a stream of naturals standing for the index that `random.choice` picks.
Every concrete execution of the Python program corresponds to some oracle.
The per-generation processing order produced by `random.shuffle(coords)` is
likewise passed explicitly as a list of coordinates.
-/

/- Batteries marks the `Rat` arithmetic operations `@[irreducible]`, which
blocks `decide`-style evaluation of concrete simulation runs; restore the
default reducibility locally so the kernel-checked evaluations below unfold. -/
attribute [local semireducible] Rat.mul Rat.inv Rat.add Rat.sub Rat.ofScientific

/-! ## Entity constants (`constants.py`) -/

abbrev Cell := Nat

def EMPTY : Cell := 0
def PREY : Cell := 1
def PREDATOR : Cell := 2
def SUBSTRATE : Cell := 3

/-- A grid is an N×N numpy integer matrix; we model it as a total function
from coordinates to cell values (indices outside the range are irrelevant). -/
abbrev Grid := Nat → Nat → Cell

/-- A hunger-tracking array (`predator_hunger` / `prey_hunger`): integer per cell. -/
abbrev Hunger := Nat → Nat → Int

/-- Pointwise update of a two-argument function, modelling `arr[x, y] = v`. -/
def upd2 {α : Type} (f : Nat → Nat → α) (x y : Nat) (v : α) : Nat → Nat → α :=
  fun a b => if a = x ∧ b = y then v else f a b

theorem upd2_same {α : Type} (f : Nat → Nat → α) (x y : Nat) (v : α) :
    upd2 f x y v x y = v := by
  simp [upd2]

theorem upd2_ne {α : Type} (f : Nat → Nat → α) (x y a b : Nat) (v : α)
    (h : ¬(a = x ∧ b = y)) : upd2 f x y v a b = f a b := by
  simp [upd2, h]

/-! ## Randomness oracle -/

/-- Oracle for Python's `random` module: `floats i` is the value returned by the
`i`-th call to `random.random()` (a real in [0,1), modelled as a rational), and
`choiceIdx i` determines the element picked by the `i`-th call to
`random.choice` (taken modulo the length of the list being chosen from). -/
structure RNG where
  floats : Nat → ℚ
  choiceIdx : Nat → Nat
  fi : Nat := 0
  ci : Nat := 0

/-- Draw the next `random.random()` value. -/
def RNG.nextFloat (r : RNG) : ℚ × RNG :=
  (r.floats r.fi, { r with fi := r.fi + 1 })

/-- Draw the next `random.choice` from a (nonempty, in all call sites) list of
coordinates. -/
def RNG.choose (r : RNG) (l : List (Nat × Nat)) : (Nat × Nat) × RNG :=
  (l.getD (r.choiceIdx r.ci % l.length) (0, 0), { r with ci := r.ci + 1 })

/-! ## Simulation parameters

The Python code reads these from a `params` dict (with `.get` defaults for the
optional keys); we model the effective values as a structure. -/

structure Params where
  predator_death_chance : ℚ
  predator_starvation_steps : ℤ
  hunt_success_prob : ℚ
  predator_reproduction_chance : ℚ
  predator_movement_prob : ℚ
  predator_birth_probability : ℚ
  prey_death_chance : ℚ
  prey_starvation_steps : ℤ
  prey_reproduction_chance : ℚ
  substrate_random_death : ℚ
  initial_substrate_probability : ℚ
  neighborhood_type : String
  grid_type : String

/-! ## Neighbor topology (`grid.py`: `get_neighbors_coords`, `count_neighbors`) -/

/-- The direction offsets used by `get_neighbors_coords`: 4 axis-aligned for
von Neumann, the 8 surrounding offsets for Moore (generated in the same
`dx`/`dy` loop order as the source). -/
def neighborDirections (neighborhood_type : String) : List (Int × Int) :=
  if neighborhood_type = "von_neumann" then
    [(0, 1), (1, 0), (0, -1), (-1, 0)]
  else
    (List.range 3).flatMap (fun i =>
      (List.range 3).filterMap (fun j =>
        let dx : Int := (i : Int) - 1
        let dy : Int := (j : Int) - 1
        if dx = 0 ∧ dy = 0 then none else some (dx, dy)))

/-- `get_neighbors_coords(grid, x, y, neighborhood_type, grid_type)`:
radius-1 neighbor coordinates.  `"torus"` wraps modulo the size (Python's `%`
on a positive modulus agrees with `Int.emod`); anything else is the finite
branch, which drops out-of-range coordinates. -/
def getNeighborsCoords (size : Nat) (x y : Nat)
    (neighborhood_type grid_type : String) : List (Nat × Nat) :=
  (neighborDirections neighborhood_type).filterMap (fun d =>
    let nx : Int := (x : Int) + d.1
    let ny : Int := (y : Int) + d.2
    if grid_type = "torus" then
      some ((nx % (size : Int)).toNat, (ny % (size : Int)).toNat)
    else
      if 0 ≤ nx ∧ nx < (size : Int) ∧ 0 ≤ ny ∧ ny < (size : Int) then
        some (nx.toNat, ny.toNat)
      else
        none)

/-- `count_neighbors(grid, x, y, entity_type, neighborhood_type, grid_type)`. -/
def countNeighbors (g : Grid) (size : Nat) (x y : Nat) (entity_type : Cell)
    (neighborhood_type grid_type : String) : Nat :=
  (getNeighborsCoords size x y neighborhood_type grid_type).countP
    (fun c => decide (g c.1 c.2 = entity_type))

/-! ## Extended-radius neighborhood (`simulation.py`: `Simulation._get_nearby_cells`)

Note the boundary vocabulary: this helper checks `grid_type == 'bounded'` and
treats every other value (including the `'finite'`/`'torus'` values used by
`get_neighbors_coords`) as toroidal. -/

def getNearbyCells (grid_type neighborhood_type : String) (grid_size : Nat)
    (x y : Nat) (distance : Nat) : List (Nat × Nat) :=
  (List.range (2 * distance + 1)).flatMap (fun i =>
    (List.range (2 * distance + 1)).filterMap (fun j =>
      let dx : Int := (i : Int) - (distance : Int)
      let dy : Int := (j : Int) - (distance : Int)
      if dx = 0 ∧ dy = 0 then none
      else if neighborhood_type = "von_neumann" ∧
          (distance : Int) < dx.natAbs + dy.natAbs then none
      else
        let nx : Int := (x : Int) + dx
        let ny : Int := (y : Int) + dy
        if grid_type = "bounded" then
          if 0 ≤ nx ∧ nx < (grid_size : Int) ∧ 0 ≤ ny ∧ ny < (grid_size : Int) then
            some (nx.toNat, ny.toNat)
          else
            none
        else
          some (((nx + (grid_size : Int)) % (grid_size : Int)).toNat,
                ((ny + (grid_size : Int)) % (grid_size : Int)).toNat)))

/-- Every coordinate produced by `_get_nearby_cells` is inside the grid
(for a positive grid size): the bounded branch checks the range explicitly and
the toroidal branch reduces modulo the size. -/
theorem mem_getNearbyCells_lt (grid_type neighborhood_type : String)
    (grid_size : Nat) (x y distance : Nat) (hsz : 0 < grid_size) :
    ∀ c ∈ getNearbyCells grid_type neighborhood_type grid_size x y distance,
      c.1 < grid_size ∧ c.2 < grid_size := by
  intro c hc
  simp only [getNearbyCells, List.mem_flatMap, List.mem_filterMap] at hc
  obtain ⟨i, _, j, _, hj⟩ := hc
  split at hj
  · exact absurd hj (by simp)
  · split at hj
    · exact absurd hj (by simp)
    · split at hj
      · split at hj
        · rename_i hrange
          obtain ⟨h1, h2, h3, h4⟩ := hrange
          cases hj
          constructor
          · exact Int.toNat_lt' (by omega) |>.mpr (by omega)
          · exact Int.toNat_lt' (by omega) |>.mpr (by omega)
        · exact absurd hj (by simp)
      · cases hj
        have hpos : (0 : Int) < (grid_size : Int) := by exact_mod_cast hsz
        have hgz : (grid_size : Int) ≠ 0 := by omega
        constructor
        · have h1 := Int.emod_lt_of_pos ((x : Int) + ((i : Int) - distance) + grid_size) hpos
          have h2 := Int.emod_nonneg ((x : Int) + ((i : Int) - distance) + grid_size) hgz
          omega
        · have h1 := Int.emod_lt_of_pos ((y : Int) + ((j : Int) - distance) + grid_size) hpos
          have h2 := Int.emod_nonneg ((y : Int) + ((j : Int) - distance) + grid_size) hgz
          omega

/-! ## Grid initialization (`grid.py`: `initialize_grid`)

numpy's shuffled flat index permutation (`np.random.shuffle(all_indices)`) is
passed in as `perm`; `np.unravel_index` with C order sends flat index `i` to
row `i / size`, column `i % size`, so the cell at `(x, y)` holds flat index
`x * size + y`.  The successive slices of `perm` are assigned `PREDATOR`,
`PREY` and `SUBSTRATE` in that order, a later assignment overwriting an
earlier one on a duplicated index (with an actual permutation the slices are
disjoint, so the order is irrelevant). -/

/-- Python's `int(...)` applied to a nonnegative-or-negative rational:
truncation toward zero. -/
def pyInt (q : ℚ) : ℤ :=
  if 0 ≤ q then ⌊q⌋ else -⌊-q⌋

/-- The `adjustment_info` dict built by `initialize_grid`: `original_values`
is always filled in; the `adjusted_values` entries and the `actual_*` counts
are present only when the corresponding key was written. -/
structure AdjustmentInfo where
  values_adjusted : Bool
  original_prey : Nat
  original_predators : Nat
  original_substrate_prob : ℚ
  adjusted_prey : Option Nat
  adjusted_predators : Option Nat
  adjusted_substrate_prob : Option ℚ
  actual_predator_count : Option Nat
  actual_prey_count : Option Nat
  actual_substrate_count : Option Nat
  reason : String
deriving Repr, DecidableEq

/-- Number of cells of `entity` in the `size`×`size` grid
(`np.count_nonzero(grid == entity)`). -/
def countCells (size : Nat) (g : Grid) (entity : Cell) : Nat :=
  ((Finset.range size ×ˢ Finset.range size).filter
    (fun c => g c.1 c.2 = entity)).card

/-- Outcome of the density-clamp phase of `initialize_grid`
(lines 77–143): the possibly reduced entity counts and substrate
probability, together with the adjustment report so far. -/
structure ClampResult where
  prey : Nat
  predators : Nat
  substrate_prob : ℚ
  adj : AdjustmentInfo
deriving Repr, DecidableEq

/-- The density-clamp phase of `initialize_grid`: for `size >= 800` cap the
entity density at 30% (`size >= 1000`) or 40% of the cells and the substrate
probability at 0.2; otherwise cap the entities at 80% of the cells.  `ratio`
is the original prey fraction and the floor of `max_entities * ratio` becomes
the adjusted prey count, predators receiving the remainder. -/
def clampPhase (size initial_prey initial_predators : Nat)
    (initial_substrate_prob : ℚ) : ClampResult :=
  let total_cells := size * size
  let total_entities := initial_prey + initial_predators
  let adj0 : AdjustmentInfo :=
    { values_adjusted := false
      original_prey := initial_prey
      original_predators := initial_predators
      original_substrate_prob := initial_substrate_prob
      adjusted_prey := none
      adjusted_predators := none
      adjusted_substrate_prob := none
      actual_predator_count := none
      actual_prey_count := none
      actual_substrate_count := none
      reason := "" }
  if 800 ≤ size then
    let max_density : ℚ := if 1000 ≤ size then 3/10 else 4/10
    let r1 : ClampResult :=
      if (total_cells : ℚ) * max_density < (total_entities : ℚ) then
        let ratio : ℚ :=
          if 0 < total_entities then (initial_prey : ℚ) / (total_entities : ℚ)
          else 1/2
        let max_entities : Nat := (pyInt ((total_cells : ℚ) * max_density)).toNat
        let adjusted_prey : Nat := (pyInt ((max_entities : ℚ) * ratio)).toNat
        let adjusted_predators : Nat := max_entities - adjusted_prey
        { prey := adjusted_prey
          predators := adjusted_predators
          substrate_prob := initial_substrate_prob
          adj := { adj0 with
            values_adjusted := true
            adjusted_prey := some adjusted_prey
            adjusted_predators := some adjusted_predators
            reason := "Grid too large (" ++ toString size ++ "×" ++ toString size
              ++ "). Entity counts reduced to prevent memory issues." } }
      else
        { prey := initial_prey, predators := initial_predators
          substrate_prob := initial_substrate_prob, adj := adj0 }
    if 2/10 < initial_substrate_prob then
      { r1 with
        substrate_prob := min initial_substrate_prob (2/10)
        adj := { r1.adj with
          values_adjusted := true
          adjusted_substrate_prob := some (min initial_substrate_prob (2/10))
          reason := r1.adj.reason
            ++ " Substrate probability reduced to avoid memory issues." } }
    else r1
  else if (total_cells : ℚ) * (8/10) < (total_entities : ℚ) then
    let ratio : ℚ :=
      if 0 < total_entities then (initial_prey : ℚ) / (total_entities : ℚ)
      else 1/2
    let max_entities : Nat := (pyInt ((total_cells : ℚ) * (8/10))).toNat
    let adjusted_prey : Nat := (pyInt ((max_entities : ℚ) * ratio)).toNat
    let adjusted_predators : Nat := max_entities - adjusted_prey
    { prey := adjusted_prey
      predators := adjusted_predators
      substrate_prob := initial_substrate_prob
      adj := { adj0 with
        values_adjusted := true
        adjusted_prey := some adjusted_prey
        adjusted_predators := some adjusted_predators
        reason := "Too many entities for grid size. Reduced to 80% of total cells." } }
  else
    { prey := initial_prey, predators := initial_predators
      substrate_prob := initial_substrate_prob, adj := adj0 }

/-- Result of `initialize_grid`: the grid plus the adjustment report. -/
structure InitResult where
  grid : Grid
  adj : AdjustmentInfo

/-- The grid assembled by `initialize_grid`'s vectorized placement
(`grid[predator_coords] = PREDATOR` etc. after `np.unravel_index`): the flat
position `x * size + y` determines the entity by which slice of the shuffled
index list it fell into.  Substrate is written last, then prey, then
predators, but the three slices are disjoint, so checking in any order gives
the same grid. -/
def placedGrid (size : Nat) (subIdx preyIdx predIdx : List Nat) : Grid :=
  fun x y =>
    let pos := x * size + y
    if pos ∈ subIdx then SUBSTRATE
    else if pos ∈ preyIdx then PREY
    else if pos ∈ predIdx then PREDATOR
    else EMPTY

/-- The placement phase of `initialize_grid` (lines 145–228): take successive
slices of the shuffled flat-index permutation for predators, prey and
substrate, then recompute the actually placed counts and reconcile them into
the report. -/
def placementPhase (size : Nat) (initial_prey initial_predators : Nat)
    (initial_substrate_prob : ℚ) (adjIn : AdjustmentInfo) (perm : List Nat) :
    InitResult :=
  let total_cells := size * size
  let predator_count := min initial_predators total_cells
  let predIdx := perm.take predator_count
  let current1 := predator_count
  let adj1 :=
    if predator_count < initial_predators then
      { adjIn with
        values_adjusted := true
        actual_predator_count := some predator_count
        reason := adjIn.reason ++ " Only placed " ++ toString predator_count
          ++ "/" ++ toString initial_predators
          ++ " predators due to space constraints." }
    else adjIn
  let prey_count := min initial_prey (total_cells - current1)
  let preyIdx := (perm.drop current1).take prey_count
  let current2 := current1 + prey_count
  let adj2 :=
    if prey_count < initial_prey then
      { adj1 with
        values_adjusted := true
        actual_prey_count := some prey_count
        reason := adj1.reason ++ " Only placed " ++ toString prey_count
          ++ "/" ++ toString initial_prey ++ " prey due to space constraints." }
    else adj1
  let remaining_cells := total_cells - current2
  let substrate_count :=
    if 0 < initial_substrate_prob then
      (pyInt ((remaining_cells : ℚ) * initial_substrate_prob)).toNat
    else 0
  let subIdx :=
    if 0 < initial_substrate_prob ∧ 0 < substrate_count then
      (perm.drop current2).take substrate_count
    else []
  let adj3 :=
    if 0 < initial_substrate_prob ∧ 0 < substrate_count then
      { adj2 with actual_substrate_count := some substrate_count }
    else adj2
  let grid : Grid := placedGrid size subIdx preyIdx predIdx
  let actual_predator_count := countCells size grid PREDATOR
  let actual_prey_count := countCells size grid PREY
  let adj4 :=
    if actual_predator_count ≠ initial_predators ∨ actual_prey_count ≠ initial_prey then
      { adj3 with
        values_adjusted := true
        actual_predator_count := some actual_predator_count
        actual_prey_count := some actual_prey_count }
    else adj3
  { grid := grid, adj := adj4 }

/-- `initialize_grid(size, initial_prey, initial_predators,
initial_substrate_prob)`: validate, clamp densities, place entities along the
shuffled permutation `perm`, and return the grid with the adjustment report.
Validation failures raise `ValueError` (the nonnegativity checks on the counts
are enforced by the `Nat` types here). -/
def initGrid (size : Nat) (initial_prey initial_predators : Nat)
    (initial_substrate_prob : ℚ) (perm : List Nat) :
    Except String InitResult :=
  if size = 0 then
    .error "Grid size must be a positive integer"
  else if ¬(0 ≤ initial_substrate_prob ∧ initial_substrate_prob ≤ 1) then
    .error "Initial substrate probability must be between 0 and 1"
  else
    let c := clampPhase size initial_prey initial_predators initial_substrate_prob
    .ok (placementPhase size c.prey c.predators c.substrate_prob c.adj perm)

/-! ## Per-sweep rule state (`Simulation.step` locals)

`newGrid` starts as `np.copy(self.grid)` and the fresh hunger arrays start at
−1 everywhere.  `writes` is a ghost field counting how many times each cell of
`new_grid` has been assigned during the sweep (it never influences values and
exists only to state the write-at-most-once claim). -/

structure RuleSt where
  newGrid : Grid
  newPh : Hunger
  newPrh : Hunger
  rng : RNG
  writes : Nat → Nat → Nat

/-- `new_grid[x, y] = v` (also bumps the ghost write counter). -/
def RuleSt.setG (st : RuleSt) (x y : Nat) (v : Cell) : RuleSt :=
  { st with
    newGrid := upd2 st.newGrid x y v
    writes := upd2 st.writes x y (st.writes x y + 1) }

/-- `new_predator_hunger[x, y] = v`. -/
def RuleSt.setPh (st : RuleSt) (x y : Nat) (v : Int) : RuleSt :=
  { st with newPh := upd2 st.newPh x y v }

/-- `new_prey_hunger[x, y] = v`. -/
def RuleSt.setPrh (st : RuleSt) (x y : Nat) (v : Int) : RuleSt :=
  { st with newPrh := upd2 st.newPrh x y v }

/-- `random.random()` inside a rule. -/
def RuleSt.draw (st : RuleSt) : ℚ × RuleSt :=
  let p := st.rng.nextFloat
  (p.1, { st with rng := p.2 })

/-- `random.choice(l)` inside a rule. -/
def RuleSt.pick (st : RuleSt) (l : List (Nat × Nat)) : (Nat × Nat) × RuleSt :=
  let p := st.rng.choose l
  (p.1, { st with rng := p.2 })

/-! ## Predator rule (`Simulation._update_predator`) -/

/-- The fall-through tail of `_update_predator` (lines 404–423): no hunt
happened, so increase hunger in place, then with probability
`predator_movement_prob` move to a uniformly chosen empty radius-1 neighbor,
carrying the incremented hunger. -/
def predatorMovePhase (g : Grid) (p : Params) (size x y : Nat)
    (current_hunger : Int) (st : RuleSt) : RuleSt :=
  let new_hunger := current_hunger + 1
  let st := st.setPh x y new_hunger
  let empty_neighbors :=
    (getNearbyCells p.grid_type p.neighborhood_type size x y 1).filter
      (fun c => decide (g c.1 c.2 = EMPTY))
  match empty_neighbors with
  | [] => st
  | _ :: _ =>
    let d := st.draw
    let st := d.2
    if d.1 < p.predator_movement_prob then
      let pk := st.pick empty_neighbors
      let st := pk.2
      let st := st.setG pk.1.1 pk.1.2 PREDATOR
      let st := st.setG x y EMPTY
      let st := st.setPh pk.1.1 pk.1.2 new_hunger
      st.setPh x y (-1)
    else st

/-- The hunt branch of `_update_predator` (lines 370–402): move onto a
uniformly chosen prey cell, reset hunger there, vacate the origin, and with
probability `predator_reproduction_chance` spawn a new predator on a uniformly
chosen empty radius-1 neighbor of the original cell. -/
def predatorHuntPhase (g : Grid) (p : Params) (size x y : Nat)
    (prey_neighbors : List (Nat × Nat)) (st : RuleSt) : RuleSt :=
  let pk := st.pick prey_neighbors
  let st := pk.2
  let st := st.setG pk.1.1 pk.1.2 PREDATOR
  let st := st.setG x y EMPTY
  let st := st.setPh pk.1.1 pk.1.2 0
  let st := st.setPh x y (-1)
  let d := st.draw
  let st := d.2
  if d.1 < p.predator_reproduction_chance then
    let empty_neighbors :=
      (getNearbyCells p.grid_type p.neighborhood_type size x y 1).filter
        (fun c => decide (g c.1 c.2 = EMPTY))
    match empty_neighbors with
    | [] => st
    | _ :: _ =>
      let pk2 := st.pick empty_neighbors
      let st := pk2.2
      let st := st.setG pk2.1.1 pk2.1.2 PREDATOR
      st.setPh pk2.1.1 pk2.1.2 0
  else st

/-- `_update_predator`: death, starvation, hunting, otherwise hunger increase
and possible movement.  The returned flag is `true` when the Python code
raises `ZeroDivisionError` at `current_hunger / hunger_threshold` (an integer
threshold of 0 that survives the starvation check); all other paths return
`false`. -/
def updatePredator (g : Grid) (ph : Hunger) (p : Params) (size x y : Nat)
    (st : RuleSt) : RuleSt × Bool :=
  let d1 := st.draw
  let st := d1.2
  if d1.1 < p.predator_death_chance then (st.setG x y EMPTY, false)
  else
    let current_hunger := ph x y
    let hunger_threshold := p.predator_starvation_steps
    if hunger_threshold ≤ current_hunger then (st.setG x y EMPTY, false)
    else if hunger_threshold = 0 then (st, true)
    else
      let neighbors := getNearbyCells p.grid_type p.neighborhood_type size x y 2
      let hunger_risk : ℚ := (current_hunger : ℚ) / (hunger_threshold : ℚ)
      let hunt_probability := p.hunt_success_prob * (1 + hunger_risk)
      let prey_neighbors := neighbors.filter (fun c => decide (g c.1 c.2 = PREY))
      match prey_neighbors with
      | [] => (predatorMovePhase g p size x y current_hunger st, false)
      | _ :: _ =>
        let d2 := st.draw
        let st := d2.2
        if d2.1 < hunt_probability then
          (predatorHuntPhase g p size x y prey_neighbors st, false)
        else
          (predatorMovePhase g p size x y current_hunger st, false)

/-! ## Prey rule (`Simulation._update_prey`) -/

/-- The foraging/movement tail of `_update_prey` (lines 464–503), reached
when the prey neither died, starved, nor froze: consume a uniformly chosen
substrate neighbor (resetting hunger, with a reproduction chance), else move
to a uniformly chosen empty neighbor carrying the incremented hunger, else
stay. -/
def preyForagePhase (g : Grid) (p : Params) (size x y : Nat)
    (new_hunger : Int) (st : RuleSt) : RuleSt :=
  let neighbors := getNearbyCells p.grid_type p.neighborhood_type size x y 1
  let substrate_neighbors :=
    neighbors.filter (fun c => decide (g c.1 c.2 = SUBSTRATE))
  match substrate_neighbors with
  | _ :: _ =>
    let pk := st.pick substrate_neighbors
    let st := pk.2
    let st := st.setG pk.1.1 pk.1.2 EMPTY
    let st := st.setPrh x y 0
    let d3 := st.draw
    let st := d3.2
    if d3.1 < p.prey_reproduction_chance then
      let empty_neighbors := neighbors.filter (fun c => decide (g c.1 c.2 = EMPTY))
      match empty_neighbors with
      | [] => st
      | _ :: _ =>
        let pk2 := st.pick empty_neighbors
        let st := pk2.2
        let st := st.setG pk2.1.1 pk2.1.2 PREY
        st.setPrh pk2.1.1 pk2.1.2 0
    else st
  | [] =>
    let empty_neighbors := neighbors.filter (fun c => decide (g c.1 c.2 = EMPTY))
    match empty_neighbors with
    | [] => st
    | _ :: _ =>
      let pk := st.pick empty_neighbors
      let st := pk.2
      let st := st.setG pk.1.1 pk.1.2 PREY
      let st := st.setG x y EMPTY
      let st := st.setPrh pk.1.1 pk.1.2 new_hunger
      st.setPrh x y (-1)

/-- `_update_prey`: death, starvation, threat-stress (with a 70% freeze),
then the foraging/movement tail. -/
def updatePrey (g : Grid) (prh : Hunger) (p : Params) (size x y : Nat)
    (st : RuleSt) : RuleSt :=
  let d1 := st.draw
  let st := d1.2
  if d1.1 < p.prey_death_chance then st.setG x y EMPTY
  else
    let current_hunger := prh x y
    let hunger_threshold := p.prey_starvation_steps
    if hunger_threshold ≤ current_hunger then st.setG x y EMPTY
    else
      let neighbors := getNearbyCells p.grid_type p.neighborhood_type size x y 1
      let predator_nearby := neighbors.any (fun c => decide (g c.1 c.2 = PREDATOR))
      let new_hunger := current_hunger + 1
      let st := st.setPrh x y new_hunger
      let frozen :=
        if predator_nearby then
          let d2 := st.draw
          (decide (d2.1 < 7/10), d2.2)
        else (false, st)
      if frozen.1 then frozen.2
      else preyForagePhase g p size x y new_hunger frozen.2

/-! ## Substrate and empty-cell rules -/

/-- `_update_substrate`: random decay to `EMPTY`. -/
def updateSubstrate (p : Params) (x y : Nat) (st : RuleSt) : RuleSt :=
  let d := st.draw
  let st := d.2
  if d.1 < p.substrate_random_death then st.setG x y EMPTY else st

/-- `_update_empty`: predator birth when there are at least two predator
neighbors and at least one prey neighbor (the birth draw happens only then,
matching Python's short-circuit `and`); otherwise a substrate-formation draw
at one tenth of the initial substrate probability. -/
def updateEmpty (g : Grid) (p : Params) (size x y : Nat) (st : RuleSt) : RuleSt :=
  let predator_neighbors :=
    countNeighbors g size x y PREDATOR p.neighborhood_type p.grid_type
  let prey_neighbors :=
    countNeighbors g size x y PREY p.neighborhood_type p.grid_type
  let birth :=
    if 2 ≤ predator_neighbors ∧ 1 ≤ prey_neighbors then
      let d := st.draw
      (decide (d.1 < p.predator_birth_probability), d.2)
    else (false, st)
  if birth.1 then
    let st := birth.2
    let st := st.setG x y PREDATOR
    st.setPh x y 0
  else
    let st := birth.2
    let d2 := st.draw
    let st := d2.2
    if d2.1 < p.initial_substrate_probability / 10 then st.setG x y SUBSTRATE
    else st

/-! ## The generation sweep (`Simulation.step`, lines 149–224)

The coordinates are processed in the shuffled order `order`.  A cell whose
`new_grid` entry already differs from the current grid is skipped
("prevents double updates in a single step").  `dispatches` is a ghost
counter of how many times each coordinate was actually dispatched to a rule
(i.e. not skipped).  If a rule raises (in this model only the predator rule's
`ZeroDivisionError`), the per-cell `except` handler assigns
`new_grid[x, y] = self.grid[x, y]` and the sweep continues.  The batching of
the coordinate list (`batch_size = 10000`) only interleaves garbage
collection and does not affect the computation. -/

structure SweepSt where
  rs : RuleSt
  dispatches : Nat → Nat → Nat

/-- Process one coordinate of the sweep. -/
def processCell (g : Grid) (ph prh : Hunger) (p : Params) (size : Nat)
    (st : SweepSt) (c : Nat × Nat) : SweepSt :=
  let x := c.1
  let y := c.2
  if st.rs.newGrid x y ≠ g x y then st
  else
    let st := { st with dispatches := upd2 st.dispatches x y (st.dispatches x y + 1) }
    if g x y = PREDATOR then
      let r := updatePredator g ph p size x y st.rs
      if r.2 then { st with rs := r.1.setG x y (g x y) } else { st with rs := r.1 }
    else if g x y = PREY then { st with rs := updatePrey g prh p size x y st.rs }
    else if g x y = SUBSTRATE then { st with rs := updateSubstrate p x y st.rs }
    else if g x y = EMPTY then { st with rs := updateEmpty g p size x y st.rs }
    else st

/-- The whole sweep of one generation over the processing order. -/
def sweep (g : Grid) (ph prh : Hunger) (p : Params) (size : Nat)
    (order : List (Nat × Nat)) (rng : RNG) : SweepSt :=
  order.foldl (processCell g ph prh p size)
    { rs :=
        { newGrid := g
          newPh := fun _ _ => -1
          newPrh := fun _ _ => -1
          rng := rng
          writes := fun _ _ => 0 }
      dispatches := fun _ _ => 0 }

/-! ## Frames and the session state (`Simulation.__init__`, `step`,
`get_statistics`) -/

/-- The count dictionary stored inside a recorded frame. -/
structure FrameStats where
  predator_count : Nat
  prey_count : Nat
  substrate_count : Nat
  empty_count : Nat
deriving Repr, DecidableEq

/-- A recorded frame: either a full grid copy (`grid = some _`) or a
counts-only summary (`grid = none`, with `grid_size` recorded). -/
structure Frame where
  grid : Option Grid
  grid_size : Option Nat
  frameStep : Nat
  statistics : FrameStats
  timestamp : String

/-- The `Simulation` session state. -/
structure Simulation where
  size : Nat
  grid : Grid
  params : Params
  adjustmentInfo : AdjustmentInfo
  recordingEnabled : Bool
  recordedFrames : List Frame
  statsPredator : List Nat
  statsPrey : List Nat
  statsSubstrate : List Nat
  predatorHunger : Hunger
  preyHunger : Hunger

/-- `Simulation.__init__(grid, params, recording_enabled, adjustment_info)`:
record the generation-0 frame (with a full grid copy) when recording is
enabled, seed the statistics history, and initialize the hunger arrays to −1
with 0 at every predator/prey cell.  `now` stands for
`datetime.now().isoformat()`. -/
def Simulation.init (size : Nat) (g : Grid) (p : Params)
    (recording_enabled : Bool) (adj : AdjustmentInfo) (now : String) :
    Simulation :=
  { size := size
    grid := g
    params := p
    adjustmentInfo := adj
    recordingEnabled := recording_enabled
    recordedFrames :=
      if recording_enabled then
        [{ grid := some (fun x y => g x y)
           grid_size := none
           frameStep := 0
           statistics :=
             { predator_count := countCells size g PREDATOR
               prey_count := countCells size g PREY
               substrate_count := countCells size g SUBSTRATE
               empty_count := countCells size g EMPTY }
           timestamp := now }]
      else []
    statsPredator := [countCells size g PREDATOR]
    statsPrey := [countCells size g PREY]
    statsSubstrate := [countCells size g SUBSTRATE]
    predatorHunger := fun x y => if g x y = PREDATOR then 0 else -1
    preyHunger := fun x y => if g x y = PREY then 0 else -1 }

/-- The body of `Simulation.step` inside the outer `try` (lines 108–323):
allocate the buffers (raising `MemoryError` on failure, modelled by
`alloc_ok = false`), run the sweep, commit the new grid and hunger arrays,
append the statistics, and record a frame (counts-only when the grid size
exceeds 500).  Returns the committed state and the returned grid. -/
def Simulation.stepBody (s : Simulation) (order : List (Nat × Nat))
    (rng : RNG) (alloc_ok : Bool) (now : String) :
    Except String (Simulation × Grid) :=
  if ¬alloc_ok then
    .error "Failed to allocate memory for grid"
  else
    let final := sweep s.grid s.predatorHunger s.preyHunger s.params s.size order rng
    let newGrid := final.rs.newGrid
    let new_predator_count := countCells s.size newGrid PREDATOR
    let new_prey_count := countCells s.size newGrid PREY
    let new_substrate_count := countCells s.size newGrid SUBSTRATE
    let s1 : Simulation :=
      { s with
        grid := newGrid
        predatorHunger := final.rs.newPh
        preyHunger := final.rs.newPrh
        statsPredator := s.statsPredator ++ [new_predator_count]
        statsPrey := s.statsPrey ++ [new_prey_count]
        statsSubstrate := s.statsSubstrate ++ [new_substrate_count] }
    let s2 : Simulation :=
      if s1.recordingEnabled then
        let current_step_num := s1.recordedFrames.length
        let frameStats : FrameStats :=
          { predator_count := new_predator_count
            prey_count := new_prey_count
            substrate_count := new_substrate_count
            empty_count := s.size * s.size -
              (new_predator_count + new_prey_count + new_substrate_count) }
        if 500 < s.size then
          { s1 with recordedFrames := s1.recordedFrames ++
              [{ grid := none
                 grid_size := some s.size
                 frameStep := current_step_num
                 statistics := frameStats
                 timestamp := now }] }
        else
          { s1 with recordedFrames := s1.recordedFrames ++
              [{ grid := some (fun x y => newGrid x y)
                 grid_size := none
                 frameStep := current_step_num
                 statistics := frameStats
                 timestamp := now }] }
      else s1
    .ok (s2, s2.grid)

/-- `Simulation.step`: the outer `try`/`except Exception` around the body.
Any exception raised inside (including the `MemoryError` from a failed buffer
allocation) is caught, and since `self.grid` always exists the handler returns
the previously committed grid with the session state untouched. -/
def Simulation.step (s : Simulation) (order : List (Nat × Nat)) (rng : RNG)
    (alloc_ok : Bool) (now : String) : Except String (Simulation × Grid) :=
  match s.stepBody order rng alloc_ok now with
  | .ok r => .ok r
  | .error _ => .ok (s, s.grid)

/-! ## Statistics (`Simulation.get_statistics`) -/

/-- Python's `round(x, 2)`.  (CPython rounds the underlying float half to
even; no claim in this development depends on the value of a rounded
percentage, only on the function being deterministic, so plain half-up
rounding on rationals is used.) -/
def round2 (q : ℚ) : ℚ := (⌊q * 100 + 1/2⌋ : ℚ) / 100

/-- Number of cells of kind `entity` whose hunger is at least `threshold`
(`np.sum((hunger >= threshold) & (grid == entity))`). -/
def countStarving (size : Nat) (g : Grid) (h : Hunger) (entity : Cell)
    (threshold : ℤ) : Nat :=
  ((Finset.range size ×ˢ Finset.range size).filter
    (fun c => threshold ≤ h c.1 c.2 ∧ g c.1 c.2 = entity)).card

/-- The statistics dict returned by `get_statistics`.  The four adjustment
entries are present only when `adjustment_info["values_adjusted"]` is set. -/
structure StatsOut where
  predator_count : Nat
  prey_count : Nat
  substrate_count : Nat
  empty_count : Nat
  predator_percentage : ℚ
  prey_percentage : ℚ
  substrate_percentage : ℚ
  empty_percentage : ℚ
  starving_predators : Nat
  starving_prey : Nat
  values_adjusted : Option Bool
  original_values : Option (Nat × Nat × ℚ)
  adjusted_values : Option (Option Nat × Option Nat × Option ℚ)
  adjustment_reason : Option String

/-- `Simulation.get_statistics`: a read of the committed state.  The method
only reads `self`; modelling it as state-in/state-out makes that explicit:
the returned session state is the input unchanged.  The entity counts are
taken from the last entry of the history series (always nonempty), the empty
count and percentages from the current grid, and the starvation-risk counts
compare each hunger array against 80% of its threshold. -/
def Simulation.getStatistics (s : Simulation) : Simulation × StatsOut :=
  let predator_count := countCells s.size s.grid PREDATOR
  let prey_count := countCells s.size s.grid PREY
  let substrate_count := countCells s.size s.grid SUBSTRATE
  let empty_count := countCells s.size s.grid EMPTY
  let total_cells := s.size * s.size
  let predator_risk_threshold :=
    pyInt ((s.params.predator_starvation_steps : ℚ) * (8/10))
  let prey_risk_threshold :=
    pyInt ((s.params.prey_starvation_steps : ℚ) * (8/10))
  let starving_predators :=
    countStarving s.size s.grid s.predatorHunger PREDATOR predator_risk_threshold
  let starving_prey :=
    countStarving s.size s.grid s.preyHunger PREY prey_risk_threshold
  let latest_predator := s.statsPredator.getLastD predator_count
  let latest_prey := s.statsPrey.getLastD prey_count
  let latest_substrate := s.statsSubstrate.getLastD substrate_count
  (s,
   { predator_count := latest_predator
     prey_count := latest_prey
     substrate_count := latest_substrate
     empty_count := empty_count
     predator_percentage := round2 ((predator_count : ℚ) / (total_cells : ℚ) * 100)
     prey_percentage := round2 ((prey_count : ℚ) / (total_cells : ℚ) * 100)
     substrate_percentage := round2 ((substrate_count : ℚ) / (total_cells : ℚ) * 100)
     empty_percentage := round2 ((empty_count : ℚ) / (total_cells : ℚ) * 100)
     starving_predators := starving_predators
     starving_prey := starving_prey
     values_adjusted :=
       if s.adjustmentInfo.values_adjusted then some true else none
     original_values :=
       if s.adjustmentInfo.values_adjusted then
         some (s.adjustmentInfo.original_prey, s.adjustmentInfo.original_predators,
               s.adjustmentInfo.original_substrate_prob)
       else none
     adjusted_values :=
       if s.adjustmentInfo.values_adjusted then
         some (s.adjustmentInfo.adjusted_prey, s.adjustmentInfo.adjusted_predators,
               s.adjustmentInfo.adjusted_substrate_prob)
       else none
     adjustment_reason :=
       if s.adjustmentInfo.values_adjusted then some s.adjustmentInfo.reason
       else none })

/-! ## Shared concrete material for witnesses and counterexamples -/

/-- A fixed randomness oracle: every `random.random()` returns 1/2 and every
`random.choice` picks the first element. -/
def rng0 : RNG := { floats := fun _ => 1/2, choiceIdx := fun _ => 0 }

/-- The empty adjustment report (`{"values_adjusted": False}` as completed by
`initialize_grid`'s tracking dict). -/
def adjNone : AdjustmentInfo :=
  { values_adjusted := false
    original_prey := 0
    original_predators := 0
    original_substrate_prob := 0
    adjusted_prey := none
    adjusted_predators := none
    adjusted_substrate_prob := none
    actual_predator_count := none
    actual_prey_count := none
    actual_substrate_count := none
    reason := "" }

/-- Default-flavored concrete parameters (probabilities as in
`constants.py` / the `.get` defaults of `simulation.py`). -/
def pDefault : Params :=
  { predator_death_chance := 5/1000
    predator_starvation_steps := 10
    hunt_success_prob := 7/10
    predator_reproduction_chance := 2/10
    predator_movement_prob := 1/2
    predator_birth_probability := 33/100
    prey_death_chance := 1/100
    prey_starvation_steps := 15
    prey_reproduction_chance := 3/10
    substrate_random_death := 3/100
    initial_substrate_probability := 0
    neighborhood_type := "moore"
    grid_type := "bounded" }

/-- An all-empty rule state over an all-empty grid. -/
def rs0 : RuleSt :=
  { newGrid := fun _ _ => EMPTY
    newPh := fun _ _ => -1
    newPrh := fun _ _ => -1
    rng := rng0
    writes := fun _ _ => 0 }

/-! ## Claim C9 — statistics is a pure, idempotent read -/

/-- C9: `get_statistics` is a pure read of committed state and is idempotent:
it returns the session state unchanged (in particular the grid, both hunger
arrays and the historical series are untouched), and a second call without an
intervening step returns the identical statistics. -/
theorem getStatistics_pure_idempotent (s : Simulation) :
    (s.getStatistics).1 = s ∧
    (s.getStatistics).1.grid = s.grid ∧
    (s.getStatistics).1.predatorHunger = s.predatorHunger ∧
    (s.getStatistics).1.preyHunger = s.preyHunger ∧
    (s.getStatistics).1.statsPredator = s.statsPredator ∧
    (s.getStatistics).1.statsPrey = s.statsPrey ∧
    (s.getStatistics).1.statsSubstrate = s.statsSubstrate ∧
    ((s.getStatistics).1.getStatistics).2 = (s.getStatistics).2 :=
  ⟨rfl, rfl, rfl, rfl, rfl, rfl, rfl, rfl⟩

/-! ## Claim C7 — allocation failure during `step` -/

/-- C7 (amended): when allocating the next-generation buffers fails, the
`MemoryError` raised inside `step` is caught by `step`'s own outer
`except Exception` handler; the caller receives the previously committed grid
as a normal (non-error) return and the committed session state is unchanged.
The failure is not surfaced to the caller as an error. -/
theorem step_allocation_failure_swallowed (s : Simulation)
    (order : List (Nat × Nat)) (rng : RNG) (now : String) :
    Simulation.step s order rng false now = .ok (s, s.grid) ∧
    Simulation.stepBody s order rng false now =
      .error "Failed to allocate memory for grid" :=
  ⟨rfl, rfl⟩

/-- C7 counterexample: at a concrete session state with a failing buffer
allocation, `step` returns a successful result (the old grid), not an error —
the claim that the failure is surfaced to the caller as an error is false.
The previously committed grid is indeed returned unchanged. -/
theorem step_allocation_failure_not_surfaced :
    (Simulation.step
        (Simulation.init 1 (fun _ _ => EMPTY) pDefault false adjNone "t0")
        [] rng0 false "t1").isOk = true ∧
    Simulation.step
        (Simulation.init 1 (fun _ _ => EMPTY) pDefault false adjNone "t0")
        [] rng0 false "t1" =
      .ok (Simulation.init 1 (fun _ _ => EMPTY) pDefault false adjNone "t0",
           (Simulation.init 1 (fun _ _ => EMPTY) pDefault false adjNone "t0").grid) :=
  ⟨rfl, rfl⟩

/-! ## Claim C10 — the hunt-probability division cannot divide by zero -/

/-- C10: in `_update_predator` the division `current_hunger /
hunger_threshold` is evaluated only after the starvation branch has returned,
so for every predator state with a nonnegative hunger counter (which the
hunger invariant guarantees for every reachable predator cell) and every
integer threshold parameter, the `ZeroDivisionError` path is unreachable: a
threshold ≤ 0 would have been caught by the starvation check
`current_hunger >= hunger_threshold` first, hence the threshold is ≥ 1 at the
division. -/
theorem updatePredator_no_div_by_zero (g : Grid) (ph : Hunger) (p : Params)
    (size x y : Nat) (st : RuleSt) (h : 0 ≤ ph x y) :
    (updatePredator g ph p size x y st).2 = false := by
  unfold updatePredator
  dsimp only
  split
  · rfl
  · split
    · rfl
    · rename_i hstarve
      split
      · rename_i hzero
        omega
      · split
        · rfl
        · split <;> rfl

/-- Witness for C10 at a concrete input. -/
theorem updatePredator_no_div_by_zero_witness :
    0 ≤ (fun _ _ => (0 : Int)) 0 0 ∧
    (updatePredator (fun _ _ => EMPTY) (fun _ _ => (0 : Int)) pDefault 3 0 0 rs0).2
      = false :=
  ⟨by decide,
   updatePredator_no_div_by_zero (fun _ _ => EMPTY) (fun _ _ => (0 : Int))
     pDefault 3 0 0 rs0 (by decide)⟩

/-! ## Claim C6 — boundary-mode vocabulary mismatch between the two helpers -/

/-- C6: for every grid-type value other than `"bounded"` — in particular the
real parameter values `"finite"` and `"torus"` used by the radius-1 helper —
the extended-radius helper `_get_nearby_cells` behaves exactly as in its
toroidal branch (coordinates wrap modulo the grid size, as the concrete
wrapped coordinate (3,0) of the corner cell (0,0) on a 5×5 grid shows),
whereas the radius-1 helper `get_neighbors_coords` drops out-of-range
coordinates exactly when its grid-type is not `"torus"`: every coordinate it
returns is then inside the grid, while with `"torus"` nothing is dropped (the
full direction list is produced, wrapped modulo the size). -/
theorem boundary_vocabulary_mismatch :
    (∀ gt nt size x y d, gt ≠ "bounded" →
        getNearbyCells gt nt size x y d = getNearbyCells "torus" nt size x y d) ∧
    (∀ gt nt size x y, gt ≠ "torus" →
        ∀ c ∈ getNeighborsCoords size x y nt gt, c.1 < size ∧ c.2 < size) ∧
    (∀ nt size x y, 0 < size →
        (getNeighborsCoords size x y nt "torus").length =
          (neighborDirections nt).length) ∧
    ((3, 0) ∈ getNearbyCells "finite" "von_neumann" 5 0 0 2) ∧
    ((3, 0) ∉ getNearbyCells "bounded" "von_neumann" 5 0 0 2) := by
  refine ⟨?_, ?_, ?_, by decide, by decide⟩
  · intro gt nt size x y d hgt
    simp only [getNearbyCells, hgt]
    simp
  · intro gt nt size x y hgt c hc
    simp only [getNeighborsCoords, List.mem_filterMap] at hc
    obtain ⟨dir, _, hdir⟩ := hc
    rw [if_neg hgt] at hdir
    split at hdir
    · rename_i hrange
      obtain ⟨h1, h2, h3, h4⟩ := hrange
      cases hdir
      exact ⟨by omega, by omega⟩
    · exact absurd hdir (by simp)
  · intro nt size x y hsz
    have hlen : ∀ (l : List (Int × Int)) (f : Int × Int → Nat × Nat),
        (l.filterMap (fun d => some (f d))).length = l.length := by
      intro l f
      induction l with
      | nil => rfl
      | cons a t ih => simp [List.filterMap_cons, ih]
    simp only [getNeighborsCoords, eq_self_iff_true, if_true]
    exact hlen _ _

/-- Witness for C6 at concrete inputs. -/
theorem boundary_vocabulary_mismatch_witness :
    getNearbyCells "finite" "moore" 4 1 1 2 = getNearbyCells "torus" "moore" 4 1 1 2 ∧
    ((0, 1).1 < 4 ∧ (0, 1).2 < 4) ∧
    (getNeighborsCoords 4 0 0 "moore" "torus").length =
      (neighborDirections "moore").length :=
  ⟨boundary_vocabulary_mismatch.1 "finite" "moore" 4 1 1 2 (by decide),
   boundary_vocabulary_mismatch.2.1 "finite" "moore" 4 0 0 (by decide) (0, 1)
     (by decide),
   boundary_vocabulary_mismatch.2.2.1 "moore" 4 0 0 (by decide)⟩

/-! ## Claim C8 — recorded frames and the grid-size rule -/

/-- The recorded-frame list of a (successful) `step` result. -/
def framesOf (r : Except String (Simulation × Grid)) : List Frame :=
  match r with
  | .ok p => p.1.recordedFrames
  | .error _ => []

/-- C8 (amended): frames recorded by `step` follow the size rule — for a grid
of size > 500 the frame omits the grid (storing the counts and the grid size
only), for size ≤ 500 it stores a full grid copy — but the generation-0 frame
captured by `__init__` at session start always stores a full grid copy,
regardless of the grid size. -/
theorem frame_recording_rule :
    (∀ size g p adj now,
      (Simulation.init size g p true adj now).recordedFrames.map
        (fun f => (f.frameStep, f.grid.isSome)) = [(0, true)]) ∧
    (∀ (s : Simulation) order rng now, s.recordingEnabled = true →
      ∃ f, framesOf (s.stepBody order rng true now) = s.recordedFrames ++ [f] ∧
        (500 < s.size → f.grid = none ∧ f.grid_size = some s.size) ∧
        (s.size ≤ 500 → f.grid.isSome = true)) := by
  constructor
  · intro size g p adj now
    rfl
  · intro s order rng now hrec
    by_cases hsz : 500 < s.size
    · simp only [Simulation.stepBody, framesOf, hrec]
      rw [if_neg (by simp), if_pos trivial, if_pos hsz]
      exact ⟨_, rfl, fun _ => ⟨rfl, rfl⟩, fun hle => absurd hle (by omega)⟩
    · simp only [Simulation.stepBody, framesOf, hrec]
      rw [if_neg (by simp), if_pos trivial, if_neg hsz]
      exact ⟨_, rfl, fun hgt => absurd hgt hsz, fun _ => rfl⟩

/-- Witness for C8's amended step rule on a concrete 1×1 session. -/
theorem frame_recording_rule_witness :
    ∃ f, framesOf ((Simulation.init 1 (fun _ _ => EMPTY) pDefault true adjNone
        "t0").stepBody [(0, 0)] rng0 true "t1") =
      (Simulation.init 1 (fun _ _ => EMPTY) pDefault true adjNone
        "t0").recordedFrames ++ [f] ∧
      (500 < (Simulation.init 1 (fun _ _ => EMPTY) pDefault true adjNone
          "t0").size → f.grid = none ∧ f.grid_size = some (Simulation.init 1
          (fun _ _ => EMPTY) pDefault true adjNone "t0").size) ∧
      ((Simulation.init 1 (fun _ _ => EMPTY) pDefault true adjNone
          "t0").size ≤ 500 → f.grid.isSome = true) :=
  frame_recording_rule.2
    (Simulation.init 1 (fun _ _ => EMPTY) pDefault true adjNone "t0")
    [(0, 0)] rng0 "t1" rfl

/-- C8 counterexample: with a 501×501 grid (size > 500) and recording
enabled, the generation-0 frame captured at session start stores a full grid
copy — contradicting the claim that every frame of a recording for
size > 500, including the generation-0 frame, omits the grid. -/
theorem frame_gen0_stores_grid_for_large_size :
    (Simulation.init 501 (fun _ _ => EMPTY) pDefault true adjNone
        "t0").recordedFrames.map (fun f => f.grid.isSome) = [true] ∧
    500 < 501 :=
  ⟨rfl, by omega⟩

/-! ## Concrete 3×3 collision scenario (used by claims C1 and C2)

Initial grid: a prey at (0,0), a predator at (0,2), everything else empty.
Under the processing order below, the prey (processed first) moves into the
empty cell (0,1); the predator (processed second) fails its hunt draw against
the stale prey position (0,0) and then moves into (0,1) as well — the cell
(0,1) was empty in the generation-start grid, so the predator's rule still
lists it as an empty neighbor.  The destination (0,1) is therefore written
twice in one sweep, and the moved prey's hunger entry survives at a cell that
ends up holding a predator. -/

def gridC12 : Grid := fun x y =>
  if x = 0 ∧ y = 0 then PREY else if x = 0 ∧ y = 2 then PREDATOR else EMPTY

def paramsC12 : Params :=
  { predator_death_chance := 0
    predator_starvation_steps := 10
    hunt_success_prob := 7/10
    predator_reproduction_chance := 0
    predator_movement_prob := 1
    predator_birth_probability := 0
    prey_death_chance := 0
    prey_starvation_steps := 15
    prey_reproduction_chance := 0
    substrate_random_death := 0
    initial_substrate_probability := 0
    neighborhood_type := "moore"
    grid_type := "bounded" }

/-- Randomness: the predator's hunt draw (the third `random.random()` of the
sweep) fails against `hunt_probability = 0.7`; every other draw is 1/2 and
every `random.choice` picks the first element. -/
def rngC12 : RNG :=
  { floats := fun i => if i = 2 then 9/10 else 1/2, choiceIdx := fun _ => 0 }

/-- A full shuffle of the 3×3 coordinates: the prey first, the predator
second. -/
def orderC12 : List (Nat × Nat) :=
  [(0, 0), (0, 2), (0, 1), (1, 0), (1, 1), (1, 2), (2, 0), (2, 1), (2, 2)]

def phC12 : Hunger := fun x y => if gridC12 x y = PREDATOR then 0 else -1
def prhC12 : Hunger := fun x y => if gridC12 x y = PREY then 0 else -1

def sweepC12 : SweepSt := sweep gridC12 phC12 prhC12 paramsC12 3 orderC12 rngC12

/-- Run one committed generation (a convenience driver for concrete
scenarios; `step` never returns an error when the allocation succeeds). -/
def stepSim (s : Simulation) (order : List (Nat × Nat)) (rng : RNG)
    (now : String) : Simulation :=
  match s.step order rng true now with
  | .ok p => p.1
  | .error _ => s

def simC12 : Simulation := Simulation.init 3 gridC12 paramsC12 false adjNone "t0"

/-- C1 counterexample: in the 3×3 scenario the destination cell (0,1) is
written twice during a single sweep over a full (duplicate-free) shuffle of
all nine coordinates — first by the prey's move, then by the predator's move,
which overwrites it (the final value is the predator).  The claim that every
cell of the next-generation buffer is written at most once is false. -/
theorem sweep_writes_cell_twice :
    sweepC12.rs.writes 0 1 = 2 ∧
    sweepC12.rs.newGrid 0 1 = PREDATOR ∧
    orderC12.Nodup ∧ orderC12.length = 3 * 3 := by
  refine ⟨?_, ?_, ?_, ?_⟩ <;> decide

/-- C2 counterexample: after one committed generation of the 3×3 scenario,
cell (0,1) holds a predator, yet the prey-hunger array still holds the moved
prey's counter 1 ≥ 0 there (the predator's later move overwrote the grid cell
but not the other kind's hunger entry).  The claimed invariant "hunger = −1
iff the co-located cell is not of that kind" is false at this observable
state. -/
theorem hunger_invariant_violated_after_step :
    (stepSim simC12 orderC12 rngC12 "t1").grid 0 1 = PREDATOR ∧
    (stepSim simC12 orderC12 rngC12 "t1").preyHunger 0 1 = 1 ∧
    ¬(((stepSim simC12 orderC12 rngC12 "t1").preyHunger 0 1 = -1) ↔
        ¬((stepSim simC12 orderC12 rngC12 "t1").grid 0 1 = PREY)) := by
  refine ⟨?_, ?_, ?_⟩ <;> decide

/-- Processing one coordinate bumps the ghost dispatch counter only at that
coordinate, and only by one. -/
theorem processCell_dispatches_le (g : Grid) (ph prh : Hunger) (p : Params)
    (size : Nat) (st : SweepSt) (c : Nat × Nat) (a b : Nat) :
    (processCell g ph prh p size st c).dispatches a b ≤
      st.dispatches a b + (if c = (a, b) then 1 else 0) := by
  have key : ∀ d : Nat → Nat → Nat,
      upd2 d c.1 c.2 (d c.1 c.2 + 1) a b ≤ d a b + (if c = (a, b) then 1 else 0) := by
    intro d
    by_cases hab : a = c.1 ∧ b = c.2
    · obtain ⟨h1, h2⟩ := hab
      subst h1
      subst h2
      rw [upd2_same]
      rw [if_pos (show c = (c.1, c.2) by cases c; rfl)]
    · rw [upd2_ne _ _ _ _ _ _ hab]
      split <;> omega
  unfold processCell
  dsimp only
  split
  · split <;> omega
  · split
    · split <;> exact key _
    · split
      · exact key _
      · split
        · exact key _
        · split
          · exact key _
          · exact key _

/-- Folding the sweep over a coordinate list bumps each coordinate's dispatch
counter at most by its number of occurrences in the list. -/
theorem foldl_dispatches_le (g : Grid) (ph prh : Hunger) (p : Params)
    (size : Nat) :
    ∀ (order : List (Nat × Nat)) (st : SweepSt) (a b : Nat),
      ((order.foldl (processCell g ph prh p size) st)).dispatches a b ≤
        st.dispatches a b + order.count (a, b) := by
  intro order
  induction order with
  | nil => intro st a b; simp
  | cons c t ih =>
    intro st a b
    simp only [List.foldl_cons]
    have h1 := ih (processCell g ph prh p size st c) a b
    have h2 := processCell_dispatches_le g ph prh p size st c a b
    have h3 : (c :: t).count (a, b) = t.count (a, b) + (if c = (a, b) then 1 else 0) := by
      simp only [List.count_cons, beq_iff_eq]
    rw [h3]
    split at h2 <;> split <;> omega

/-- A duplicate-free coordinate list mentions each coordinate at most once. -/
theorem count_le_one_of_nodup (l : List (Nat × Nat)) (hl : l.Nodup)
    (x : Nat × Nat) : l.count x ≤ 1 := by
  induction l with
  | nil => simp
  | cons d t ih =>
    rcases List.nodup_cons.mp hl with ⟨hd, ht⟩
    rw [List.count_cons]
    by_cases h : d = x
    · subst h
      have : t.count d = 0 := List.count_eq_zero.mpr hd
      simp [this]
    · have : (d == x) = false := by simp [h]
      simp [this, ih ht]

/-- C1 (amended): during one generation's sweep every cell is *dispatched* as
a source at most once — and a cell whose next-generation entry already
differs from its current-grid value is skipped entirely — but a destination
cell may be written more than once: a later-processed rule overwrites the
earlier write (last-writer-wins). -/
theorem sweep_dispatches_at_most_once (g : Grid) (ph prh : Hunger)
    (p : Params) (size : Nat) (order : List (Nat × Nat)) (rng : RNG)
    (hnd : order.Nodup) :
    (∀ a b, (sweep g ph prh p size order rng).dispatches a b ≤ 1) ∧
    (∀ (st : SweepSt) (c : Nat × Nat),
      st.rs.newGrid c.1 c.2 ≠ g c.1 c.2 →
      processCell g ph prh p size st c = st) := by
  constructor
  · intro a b
    unfold sweep
    have h := foldl_dispatches_le g ph prh p size order
      { rs :=
          { newGrid := g
            newPh := fun _ _ => -1
            newPrh := fun _ _ => -1
            rng := rng
            writes := fun _ _ => 0 }
        dispatches := fun _ _ => 0 } a b
    have hcount := count_le_one_of_nodup order hnd (a, b)
    dsimp only at h
    omega
  · intro st c hne
    unfold processCell
    dsimp only
    rw [if_pos hne]

/-- Witness for C1's amended claim on the concrete 3×3 scenario order. -/
theorem sweep_dispatches_at_most_once_witness :
    (∀ a b, (sweep gridC12 phC12 prhC12 paramsC12 3 orderC12 rngC12).dispatches
        a b ≤ 1) ∧
    (∀ (st : SweepSt) (c : Nat × Nat),
      st.rs.newGrid c.1 c.2 ≠ gridC12 c.1 c.2 →
      processCell gridC12 phC12 prhC12 paramsC12 3 st c = st) :=
  sweep_dispatches_at_most_once gridC12 phC12 prhC12 paramsC12 3 orderC12
    rngC12 (by decide)

/-! ## Write locality of the sweep

Rules only write to their own cell and to coordinates drawn from the neighbor
helpers, all of which lie inside the grid; cells outside the grid are never
touched.  This is used to turn concrete sweeps into closed-form states. -/

/-- `random.choice` returns an element of the (nonempty) list. -/
theorem RNG.choose_mem (r : RNG) (l : List (Nat × Nat)) (hl : l ≠ []) :
    (r.choose l).1 ∈ l := by
  unfold RNG.choose
  dsimp only
  have hlen : 0 < l.length := List.length_pos.mpr hl
  have hlt : r.choiceIdx r.ci % l.length < l.length := Nat.mod_lt _ hlen
  rw [List.getD_eq_getElem?_getD, List.getElem?_eq_getElem hlt]
  exact List.getElem_mem hlt

theorem RuleSt.pick_mem (st : RuleSt) (l : List (Nat × Nat)) (hl : l ≠ []) :
    (st.pick l).1 ∈ l :=
  RNG.choose_mem st.rng l hl

/-- The three per-cell buffers agree at `(a, b)` between two rule states. -/
def UnchangedAt (st st' : RuleSt) (a b : Nat) : Prop :=
  st'.newGrid a b = st.newGrid a b ∧ st'.newPh a b = st.newPh a b ∧
    st'.newPrh a b = st.newPrh a b

theorem UnchangedAt.refl (st : RuleSt) (a b : Nat) : UnchangedAt st st a b :=
  ⟨rfl, rfl, rfl⟩

theorem UnchangedAt.trans {s1 s2 s3 : RuleSt} {a b : Nat}
    (h1 : UnchangedAt s1 s2 a b) (h2 : UnchangedAt s2 s3 a b) :
    UnchangedAt s1 s3 a b :=
  ⟨h2.1.trans h1.1, h2.2.1.trans h1.2.1, h2.2.2.trans h1.2.2⟩

theorem unch_setG {st : RuleSt} {a b : Nat} (u v : Nat) (w : Cell)
    (h : ¬(a = u ∧ b = v)) : UnchangedAt st (st.setG u v w) a b :=
  ⟨upd2_ne _ _ _ _ _ _ h, rfl, rfl⟩

theorem unch_setPh {st : RuleSt} {a b : Nat} (u v : Nat) (w : Int)
    (h : ¬(a = u ∧ b = v)) : UnchangedAt st (st.setPh u v w) a b :=
  ⟨rfl, upd2_ne _ _ _ _ _ _ h, rfl⟩

theorem unch_setPrh {st : RuleSt} {a b : Nat} (u v : Nat) (w : Int)
    (h : ¬(a = u ∧ b = v)) : UnchangedAt st (st.setPrh u v w) a b :=
  ⟨rfl, rfl, upd2_ne _ _ _ _ _ _ h⟩

theorem unch_draw {st : RuleSt} {a b : Nat} : UnchangedAt st (st.draw).2 a b :=
  ⟨rfl, rfl, rfl⟩

theorem unch_pick {st : RuleSt} {a b : Nat} (l : List (Nat × Nat)) :
    UnchangedAt st (st.pick l).2 a b :=
  ⟨rfl, rfl, rfl⟩

theorem predatorMovePhase_out (g : Grid) (p : Params) (size x y : Nat)
    (cur : Int) (st : RuleSt) (a b : Nat) (hsz : 0 < size) (hx : x < size)
    (hy : y < size) (hout : ¬(a < size ∧ b < size)) :
    UnchangedAt st (predatorMovePhase g p size x y cur st) a b := by
  have hxy : ¬(a = x ∧ b = y) := by omega
  have hemem : ∀ u ∈ (getNearbyCells p.grid_type p.neighborhood_type size x y
      1).filter (fun c => decide (g c.1 c.2 = EMPTY)), ¬(a = u.1 ∧ b = u.2) := by
    intro u hu hcon
    have := mem_getNearbyCells_lt _ _ _ _ _ _ hsz u (List.mem_of_mem_filter hu)
    omega
  unfold predatorMovePhase
  dsimp only
  split
  · exact unch_setPh x y _ hxy
  · rename_i hd tl heq
    have hne : (getNearbyCells p.grid_type p.neighborhood_type size x y 1).filter
        (fun c => decide (g c.1 c.2 = EMPTY)) ≠ [] := by
      rw [heq]
      exact List.cons_ne_nil _ _
    split
    · exact (unch_setPh x y _ hxy).trans (unch_draw.trans ((unch_pick _).trans
        ((unch_setG _ _ _ (hemem _ (RuleSt.pick_mem _ _ hne))).trans
        ((unch_setG x y _ hxy).trans
        ((unch_setPh _ _ _ (hemem _ (RuleSt.pick_mem _ _ hne))).trans
        (unch_setPh x y _ hxy))))))
    · exact (unch_setPh x y _ hxy).trans unch_draw

theorem predatorHuntPhase_out (g : Grid) (p : Params) (size x y : Nat)
    (prey_neighbors : List (Nat × Nat)) (st : RuleSt) (a b : Nat)
    (hsz : 0 < size) (hx : x < size) (hy : y < size)
    (hprey : ∀ c ∈ prey_neighbors, c.1 < size ∧ c.2 < size)
    (hpne : prey_neighbors ≠ [])
    (hout : ¬(a < size ∧ b < size)) :
    UnchangedAt st (predatorHuntPhase g p size x y prey_neighbors st) a b := by
  have hxy : ¬(a = x ∧ b = y) := by omega
  have hpmem : ∀ u ∈ prey_neighbors, ¬(a = u.1 ∧ b = u.2) := by
    intro u hu hcon
    have := hprey _ hu
    omega
  have hemem : ∀ u ∈ (getNearbyCells p.grid_type p.neighborhood_type size x y
      1).filter (fun c => decide (g c.1 c.2 = EMPTY)), ¬(a = u.1 ∧ b = u.2) := by
    intro u hu hcon
    have := mem_getNearbyCells_lt _ _ _ _ _ _ hsz u (List.mem_of_mem_filter hu)
    omega
  unfold predatorHuntPhase
  dsimp only
  split
  · split
    · exact (unch_pick _).trans ((unch_setG _ _ _ (hpmem _ (RuleSt.pick_mem st _
        hpne))).trans ((unch_setG x y _ hxy).trans ((unch_setPh _ _ _ (hpmem _
        (RuleSt.pick_mem st _ hpne))).trans ((unch_setPh x y _ hxy).trans
        unch_draw))))
    · rename_i hd tl heq
      have hne : (getNearbyCells p.grid_type p.neighborhood_type size x y 1).filter
          (fun c => decide (g c.1 c.2 = EMPTY)) ≠ [] := by
        rw [heq]
        exact List.cons_ne_nil _ _
      exact (unch_pick _).trans ((unch_setG _ _ _ (hpmem _ (RuleSt.pick_mem st _
        hpne))).trans ((unch_setG x y _ hxy).trans ((unch_setPh _ _ _ (hpmem _
        (RuleSt.pick_mem st _ hpne))).trans ((unch_setPh x y _ hxy).trans
        (unch_draw.trans ((unch_pick _).trans ((unch_setG _ _ _ (hemem _
        (RuleSt.pick_mem _ _ hne))).trans (unch_setPh _ _ _ (hemem _
        (RuleSt.pick_mem _ _ hne))))))))))
  · exact (unch_pick _).trans ((unch_setG _ _ _ (hpmem _ (RuleSt.pick_mem st _
      hpne))).trans ((unch_setG x y _ hxy).trans ((unch_setPh _ _ _ (hpmem _
      (RuleSt.pick_mem st _ hpne))).trans ((unch_setPh x y _ hxy).trans
      unch_draw))))

theorem updatePredator_out (g : Grid) (ph : Hunger) (p : Params)
    (size x y : Nat) (st : RuleSt) (a b : Nat) (hsz : 0 < size)
    (hx : x < size) (hy : y < size) (hout : ¬(a < size ∧ b < size)) :
    UnchangedAt st (updatePredator g ph p size x y st).1 a b := by
  have hxy : ¬(a = x ∧ b = y) := by omega
  have hprey : ∀ c ∈ (getNearbyCells p.grid_type p.neighborhood_type size x y 2).filter
      (fun c => decide (g c.1 c.2 = PREY)), c.1 < size ∧ c.2 < size :=
    fun c hc => mem_getNearbyCells_lt _ _ _ _ _ _ hsz c (List.mem_of_mem_filter hc)
  unfold updatePredator
  dsimp only
  split
  · exact unch_draw.trans (unch_setG x y _ hxy)
  · split
    · exact unch_draw.trans (unch_setG x y _ hxy)
    · split
      · exact unch_draw
      · split
        · exact unch_draw.trans
            (predatorMovePhase_out g p size x y _ _ a b hsz hx hy hout)
        · rename_i hd tl heq
          have hpne : (getNearbyCells p.grid_type p.neighborhood_type size x y
              2).filter (fun c => decide (g c.1 c.2 = PREY)) ≠ [] := by
            rw [heq]
            exact List.cons_ne_nil _ _
          split
          · exact unch_draw.trans (unch_draw.trans
              (predatorHuntPhase_out g p size x y _ _ a b hsz hx hy hprey hpne hout))
          · exact unch_draw.trans (unch_draw.trans
              (predatorMovePhase_out g p size x y _ _ a b hsz hx hy hout))

theorem preyForagePhase_out (g : Grid) (p : Params) (size x y : Nat)
    (new_hunger : Int) (st : RuleSt) (a b : Nat) (hsz : 0 < size)
    (hx : x < size) (hy : y < size) (hout : ¬(a < size ∧ b < size)) :
    UnchangedAt st (preyForagePhase g p size x y new_hunger st) a b := by
  have hxy : ¬(a = x ∧ b = y) := by omega
  have hsmem : ∀ u ∈ (getNearbyCells p.grid_type p.neighborhood_type size x y
      1).filter (fun c => decide (g c.1 c.2 = SUBSTRATE)), ¬(a = u.1 ∧ b = u.2) := by
    intro u hu hcon
    have := mem_getNearbyCells_lt _ _ _ _ _ _ hsz u (List.mem_of_mem_filter hu)
    omega
  have hemem : ∀ u ∈ (getNearbyCells p.grid_type p.neighborhood_type size x y
      1).filter (fun c => decide (g c.1 c.2 = EMPTY)), ¬(a = u.1 ∧ b = u.2) := by
    intro u hu hcon
    have := mem_getNearbyCells_lt _ _ _ _ _ _ hsz u (List.mem_of_mem_filter hu)
    omega
  unfold preyForagePhase
  dsimp only
  split
  · rename_i hd tl heq
    have hsne : (getNearbyCells p.grid_type p.neighborhood_type size x y 1).filter
        (fun c => decide (g c.1 c.2 = SUBSTRATE)) ≠ [] := by
      rw [heq]
      exact List.cons_ne_nil _ _
    split
    · split
      · exact (unch_pick _).trans ((unch_setG _ _ _ (hsmem _ (RuleSt.pick_mem st _
          hsne))).trans ((unch_setPrh x y _ hxy).trans unch_draw))
      · rename_i hd2 tl2 heq2
        have hene : (getNearbyCells p.grid_type p.neighborhood_type size x y
            1).filter (fun c => decide (g c.1 c.2 = EMPTY)) ≠ [] := by
          rw [heq2]
          exact List.cons_ne_nil _ _
        exact (unch_pick _).trans ((unch_setG _ _ _ (hsmem _ (RuleSt.pick_mem st _
          hsne))).trans ((unch_setPrh x y _ hxy).trans (unch_draw.trans
          ((unch_pick _).trans ((unch_setG _ _ _ (hemem _ (RuleSt.pick_mem _ _
          hene))).trans (unch_setPrh _ _ _ (hemem _ (RuleSt.pick_mem _ _
          hene))))))))
    · exact (unch_pick _).trans ((unch_setG _ _ _ (hsmem _ (RuleSt.pick_mem st _
        hsne))).trans ((unch_setPrh x y _ hxy).trans unch_draw))
  · split
    · exact UnchangedAt.refl _ _ _
    · rename_i hd tl heq
      have hene : (getNearbyCells p.grid_type p.neighborhood_type size x y
          1).filter (fun c => decide (g c.1 c.2 = EMPTY)) ≠ [] := by
        rw [heq]
        exact List.cons_ne_nil _ _
      exact (unch_pick _).trans ((unch_setG _ _ _ (hemem _ (RuleSt.pick_mem st _
        hene))).trans ((unch_setG x y _ hxy).trans ((unch_setPrh _ _ _ (hemem _
        (RuleSt.pick_mem st _ hene))).trans (unch_setPrh x y _ hxy))))

theorem updatePrey_out (g : Grid) (prh : Hunger) (p : Params)
    (size x y : Nat) (st : RuleSt) (a b : Nat) (hsz : 0 < size)
    (hx : x < size) (hy : y < size) (hout : ¬(a < size ∧ b < size)) :
    UnchangedAt st (updatePrey g prh p size x y st) a b := by
  have hxy : ¬(a = x ∧ b = y) := by omega
  unfold updatePrey
  dsimp only
  split
  · exact unch_draw.trans (unch_setG x y _ hxy)
  · split
    · exact unch_draw.trans (unch_setG x y _ hxy)
    · split
      · -- a predator is nearby: the freeze draw happens
        split
        · exact unch_draw.trans ((unch_setPrh x y _ hxy).trans unch_draw)
        · exact unch_draw.trans ((unch_setPrh x y _ hxy).trans (unch_draw.trans
            (preyForagePhase_out g p size x y _ _ a b hsz hx hy hout)))
      · -- no predator nearby: frozen is (false, st)
        split
        · rename_i hfalse
          exact absurd hfalse (by simp)
        · exact unch_draw.trans ((unch_setPrh x y _ hxy).trans
            (preyForagePhase_out g p size x y _ _ a b hsz hx hy hout))

theorem updateSubstrate_out (p : Params) (size x y : Nat) (st : RuleSt)
    (a b : Nat) (hx : x < size) (hy : y < size)
    (hout : ¬(a < size ∧ b < size)) :
    UnchangedAt st (updateSubstrate p x y st) a b := by
  have hxy : ¬(a = x ∧ b = y) := by omega
  unfold updateSubstrate
  dsimp only
  split
  · exact unch_draw.trans (unch_setG x y _ hxy)
  · exact unch_draw

theorem updateEmpty_out (g : Grid) (p : Params) (size x y : Nat)
    (st : RuleSt) (a b : Nat) (hx : x < size) (hy : y < size)
    (hout : ¬(a < size ∧ b < size)) :
    UnchangedAt st (updateEmpty g p size x y st) a b := by
  have hxy : ¬(a = x ∧ b = y) := by omega
  unfold updateEmpty
  dsimp only
  split
  · -- enough predator and prey neighbors: the birth draw happens
    split
    · exact unch_draw.trans ((unch_setG x y _ hxy).trans (unch_setPh x y _ hxy))
    · split
      · exact unch_draw.trans (unch_draw.trans (unch_setG x y _ hxy))
      · exact unch_draw.trans unch_draw
  · -- no birth candidate: only the substrate draw happens
    split
    · rename_i hfalse
      exact absurd hfalse (by simp)
    · split
      · exact unch_draw.trans (unch_setG x y _ hxy)
      · exact unch_draw

theorem processCell_out (g : Grid) (ph prh : Hunger) (p : Params) (size : Nat)
    (st : SweepSt) (c : Nat × Nat) (a b : Nat) (hsz : 0 < size)
    (hc : c.1 < size ∧ c.2 < size) (hout : ¬(a < size ∧ b < size)) :
    UnchangedAt st.rs (processCell g ph prh p size st c).rs a b := by
  have hxy : ¬(a = c.1 ∧ b = c.2) := by omega
  unfold processCell
  dsimp only
  split
  · exact UnchangedAt.refl _ _ _
  · split
    · split
      · exact (updatePredator_out g ph p size c.1 c.2 _ a b hsz hc.1 hc.2 hout).trans
          (unch_setG c.1 c.2 _ hxy)
      · exact updatePredator_out g ph p size c.1 c.2 _ a b hsz hc.1 hc.2 hout
    · split
      · exact updatePrey_out g prh p size c.1 c.2 _ a b hsz hc.1 hc.2 hout
      · split
        · exact updateSubstrate_out p size c.1 c.2 _ a b hc.1 hc.2 hout
        · split
          · exact updateEmpty_out g p size c.1 c.2 _ a b hc.1 hc.2 hout
          · exact UnchangedAt.refl _ _ _

theorem foldl_out (g : Grid) (ph prh : Hunger) (p : Params) (size : Nat)
    (a b : Nat) (hsz : 0 < size) (hout : ¬(a < size ∧ b < size)) :
    ∀ (order : List (Nat × Nat)) (st : SweepSt),
      (∀ c ∈ order, c.1 < size ∧ c.2 < size) →
      UnchangedAt st.rs ((order.foldl (processCell g ph prh p size) st)).rs a b := by
  intro order
  induction order with
  | nil =>
    intro st _
    exact UnchangedAt.refl _ _ _
  | cons c t ih =>
    intro st hord
    simp only [List.foldl_cons]
    exact (processCell_out g ph prh p size st c a b hsz (hord c (by simp))
      hout).trans (ih _ (fun d hd => hord d (by simp [hd])))

/-- Cells outside the grid are never written during a sweep: the
next-generation buffer keeps the copied value and the fresh hunger arrays
keep −1 there. -/
theorem sweep_out (g : Grid) (ph prh : Hunger) (p : Params) (size : Nat)
    (order : List (Nat × Nat)) (rng : RNG) (a b : Nat) (hsz : 0 < size)
    (horder : ∀ c ∈ order, c.1 < size ∧ c.2 < size)
    (hout : ¬(a < size ∧ b < size)) :
    (sweep g ph prh p size order rng).rs.newGrid a b = g a b ∧
    (sweep g ph prh p size order rng).rs.newPh a b = -1 ∧
    (sweep g ph prh p size order rng).rs.newPrh a b = -1 := by
  unfold sweep
  exact foldl_out g ph prh p size a b hsz hout order _ horder

/-! ## Claim C3 — starvation timing on a 5×5 torus

A single predator with `predator_death_chance = 0`,
`predator_starvation_steps = 3`, no prey anywhere and movement probability 0.
Its hunger starts at 0 and the starvation check `hunger >= threshold` runs
*before* the increment, so the predator survives generations 1–3 (hunger
1, 2, 3) and dies in generation 4. -/

def gridC3 : Grid := fun x y => if x = 2 ∧ y = 2 then PREDATOR else EMPTY

def paramsC3 : Params :=
  { predator_death_chance := 0
    predator_starvation_steps := 3
    hunt_success_prob := 7/10
    predator_reproduction_chance := 0
    predator_movement_prob := 0
    predator_birth_probability := 33/100
    prey_death_chance := 0
    prey_starvation_steps := 15
    prey_reproduction_chance := 0
    substrate_random_death := 0
    initial_substrate_probability := 0
    neighborhood_type := "von_neumann"
    grid_type := "torus" }

def orderC3 : List (Nat × Nat) :=
  (List.range 5).flatMap (fun x => (List.range 5).map (fun y => (x, y)))

def simC3 : Simulation := Simulation.init 5 gridC3 paramsC3 false adjNone "t0"

def stepC3 (s : Simulation) : Simulation := stepSim s orderC3 rng0 "t"

/-- The committed fields of `stepSim` are those produced by the sweep (the
session bookkeeping — parameters, size, recording mode — is untouched). -/
theorem stepSim_fields (s : Simulation) (order : List (Nat × Nat)) (rng : RNG)
    (now : String) :
    (stepSim s order rng now).grid =
      (sweep s.grid s.predatorHunger s.preyHunger s.params s.size order rng).rs.newGrid ∧
    (stepSim s order rng now).predatorHunger =
      (sweep s.grid s.predatorHunger s.preyHunger s.params s.size order rng).rs.newPh ∧
    (stepSim s order rng now).preyHunger =
      (sweep s.grid s.predatorHunger s.preyHunger s.params s.size order rng).rs.newPrh ∧
    (stepSim s order rng now).size = s.size ∧
    (stepSim s order rng now).params = s.params ∧
    (stepSim s order rng now).recordingEnabled = s.recordingEnabled ∧
    (stepSim s order rng now).adjustmentInfo = s.adjustmentInfo := by
  unfold stepSim Simulation.step Simulation.stepBody
  rw [if_neg (by simp)]
  dsimp only
  split
  · split
    · exact ⟨rfl, rfl, rfl, rfl, rfl, rfl, rfl⟩
    · exact ⟨rfl, rfl, rfl, rfl, rfl, rfl, rfl⟩
  · exact ⟨rfl, rfl, rfl, rfl, rfl, rfl, rfl⟩

/-- Intermediate states of the starvation scenario: after `n ∈ {1, 2, 3}`
generations the predator is still at (2,2) with hunger `n`. -/
def simC3mid (h : Int) (stats : List Nat) (zeros : List Nat) : Simulation :=
  { size := 5
    grid := gridC3
    params := paramsC3
    adjustmentInfo := adjNone
    recordingEnabled := false
    recordedFrames := []
    statsPredator := stats
    statsPrey := zeros
    statsSubstrate := zeros
    predatorHunger := fun x y => if x = 2 ∧ y = 2 then h else -1
    preyHunger := fun _ _ => -1 }

def simC3_1 : Simulation := simC3mid 1 [1, 1] [0, 0]
def simC3_2 : Simulation := simC3mid 2 [1, 1, 1] [0, 0, 0]
def simC3_3 : Simulation := simC3mid 3 [1, 1, 1, 1] [0, 0, 0, 0]

def simC3_4 : Simulation :=
  { size := 5
    grid := fun _ _ => EMPTY
    params := paramsC3
    adjustmentInfo := adjNone
    recordingEnabled := false
    recordedFrames := []
    statsPredator := [1, 1, 1, 1, 0]
    statsPrey := [0, 0, 0, 0, 0]
    statsSubstrate := [0, 0, 0, 0, 0]
    predatorHunger := fun _ _ => -1
    preyHunger := fun _ _ => -1 }

attribute [ext] Simulation

set_option maxRecDepth 20000 in
theorem c3_step1 : stepC3 simC3 = simC3_1 := by
  have hin : ∀ a, a < 5 → ∀ b, b < 5 →
      (stepC3 simC3).grid a b = simC3_1.grid a b ∧
      (stepC3 simC3).predatorHunger a b = simC3_1.predatorHunger a b ∧
      (stepC3 simC3).preyHunger a b = simC3_1.preyHunger a b := by decide
  have horder : ∀ c ∈ orderC3, c.1 < simC3.size ∧ c.2 < simC3.size := by decide
  have hfields := stepSim_fields simC3 orderC3 rng0 "t"
  unfold stepC3
  refine Simulation.ext ?_ ?_ ?_ ?_ ?_ ?_ ?_ ?_ ?_ ?_ ?_
  · rfl
  · funext a b
    by_cases hab : a < 5 ∧ b < 5
    · exact (hin a hab.1 b hab.2).1
    · have hout := sweep_out simC3.grid simC3.predatorHunger simC3.preyHunger
        simC3.params simC3.size orderC3 rng0 a b (by decide) horder hab
      rw [hfields.1, hout.1]
      rfl
  · rfl
  · rfl
  · rfl
  · rfl
  · decide
  · decide
  · decide
  · funext a b
    by_cases hab : a < 5 ∧ b < 5
    · exact (hin a hab.1 b hab.2).2.1
    · have hout := sweep_out simC3.grid simC3.predatorHunger simC3.preyHunger
        simC3.params simC3.size orderC3 rng0 a b (by decide) horder hab
      rw [hfields.2.1, hout.2.1]
      show (-1 : Int) = if a = 2 ∧ b = 2 then 1 else -1
      rw [if_neg (by omega)]
  · funext a b
    by_cases hab : a < 5 ∧ b < 5
    · exact (hin a hab.1 b hab.2).2.2
    · have hout := sweep_out simC3.grid simC3.predatorHunger simC3.preyHunger
        simC3.params simC3.size orderC3 rng0 a b (by decide) horder hab
      rw [hfields.2.2.1, hout.2.2]
      rfl

set_option maxRecDepth 20000 in
theorem c3_step2 : stepC3 simC3_1 = simC3_2 := by
  have hin : ∀ a, a < 5 → ∀ b, b < 5 →
      (stepC3 simC3_1).grid a b = simC3_2.grid a b ∧
      (stepC3 simC3_1).predatorHunger a b = simC3_2.predatorHunger a b ∧
      (stepC3 simC3_1).preyHunger a b = simC3_2.preyHunger a b := by decide
  have horder : ∀ c ∈ orderC3, c.1 < simC3_1.size ∧ c.2 < simC3_1.size := by decide
  have hfields := stepSim_fields simC3_1 orderC3 rng0 "t"
  unfold stepC3
  refine Simulation.ext ?_ ?_ ?_ ?_ ?_ ?_ ?_ ?_ ?_ ?_ ?_
  · rfl
  · funext a b
    by_cases hab : a < 5 ∧ b < 5
    · exact (hin a hab.1 b hab.2).1
    · have hout := sweep_out simC3_1.grid simC3_1.predatorHunger simC3_1.preyHunger
        simC3_1.params simC3_1.size orderC3 rng0 a b (by decide) horder hab
      rw [hfields.1, hout.1]
      rfl
  · rfl
  · rfl
  · rfl
  · rfl
  · decide
  · decide
  · decide
  · funext a b
    by_cases hab : a < 5 ∧ b < 5
    · exact (hin a hab.1 b hab.2).2.1
    · have hout := sweep_out simC3_1.grid simC3_1.predatorHunger simC3_1.preyHunger
        simC3_1.params simC3_1.size orderC3 rng0 a b (by decide) horder hab
      rw [hfields.2.1, hout.2.1]
      show (-1 : Int) = if a = 2 ∧ b = 2 then 2 else -1
      rw [if_neg (by omega)]
  · funext a b
    by_cases hab : a < 5 ∧ b < 5
    · exact (hin a hab.1 b hab.2).2.2
    · have hout := sweep_out simC3_1.grid simC3_1.predatorHunger simC3_1.preyHunger
        simC3_1.params simC3_1.size orderC3 rng0 a b (by decide) horder hab
      rw [hfields.2.2.1, hout.2.2]
      rfl

set_option maxRecDepth 20000 in
theorem c3_step3 : stepC3 simC3_2 = simC3_3 := by
  have hin : ∀ a, a < 5 → ∀ b, b < 5 →
      (stepC3 simC3_2).grid a b = simC3_3.grid a b ∧
      (stepC3 simC3_2).predatorHunger a b = simC3_3.predatorHunger a b ∧
      (stepC3 simC3_2).preyHunger a b = simC3_3.preyHunger a b := by decide
  have horder : ∀ c ∈ orderC3, c.1 < simC3_2.size ∧ c.2 < simC3_2.size := by decide
  have hfields := stepSim_fields simC3_2 orderC3 rng0 "t"
  unfold stepC3
  refine Simulation.ext ?_ ?_ ?_ ?_ ?_ ?_ ?_ ?_ ?_ ?_ ?_
  · rfl
  · funext a b
    by_cases hab : a < 5 ∧ b < 5
    · exact (hin a hab.1 b hab.2).1
    · have hout := sweep_out simC3_2.grid simC3_2.predatorHunger simC3_2.preyHunger
        simC3_2.params simC3_2.size orderC3 rng0 a b (by decide) horder hab
      rw [hfields.1, hout.1]
      rfl
  · rfl
  · rfl
  · rfl
  · rfl
  · decide
  · decide
  · decide
  · funext a b
    by_cases hab : a < 5 ∧ b < 5
    · exact (hin a hab.1 b hab.2).2.1
    · have hout := sweep_out simC3_2.grid simC3_2.predatorHunger simC3_2.preyHunger
        simC3_2.params simC3_2.size orderC3 rng0 a b (by decide) horder hab
      rw [hfields.2.1, hout.2.1]
      show (-1 : Int) = if a = 2 ∧ b = 2 then 3 else -1
      rw [if_neg (by omega)]
  · funext a b
    by_cases hab : a < 5 ∧ b < 5
    · exact (hin a hab.1 b hab.2).2.2
    · have hout := sweep_out simC3_2.grid simC3_2.predatorHunger simC3_2.preyHunger
        simC3_2.params simC3_2.size orderC3 rng0 a b (by decide) horder hab
      rw [hfields.2.2.1, hout.2.2]
      rfl

set_option maxRecDepth 20000 in
theorem c3_step4 : stepC3 simC3_3 = simC3_4 := by
  have hin : ∀ a, a < 5 → ∀ b, b < 5 →
      (stepC3 simC3_3).grid a b = simC3_4.grid a b ∧
      (stepC3 simC3_3).predatorHunger a b = simC3_4.predatorHunger a b ∧
      (stepC3 simC3_3).preyHunger a b = simC3_4.preyHunger a b := by decide
  have horder : ∀ c ∈ orderC3, c.1 < simC3_3.size ∧ c.2 < simC3_3.size := by decide
  have hfields := stepSim_fields simC3_3 orderC3 rng0 "t"
  unfold stepC3
  refine Simulation.ext ?_ ?_ ?_ ?_ ?_ ?_ ?_ ?_ ?_ ?_ ?_
  · rfl
  · funext a b
    by_cases hab : a < 5 ∧ b < 5
    · exact (hin a hab.1 b hab.2).1
    · have hout := sweep_out simC3_3.grid simC3_3.predatorHunger simC3_3.preyHunger
        simC3_3.params simC3_3.size orderC3 rng0 a b (by decide) horder hab
      rw [hfields.1, hout.1]
      show (if a = 2 ∧ b = 2 then PREDATOR else EMPTY) = EMPTY
      rw [if_neg (by omega)]
  · rfl
  · rfl
  · rfl
  · rfl
  · decide
  · decide
  · decide
  · funext a b
    by_cases hab : a < 5 ∧ b < 5
    · exact (hin a hab.1 b hab.2).2.1
    · have hout := sweep_out simC3_3.grid simC3_3.predatorHunger simC3_3.preyHunger
        simC3_3.params simC3_3.size orderC3 rng0 a b (by decide) horder hab
      rw [hfields.2.1, hout.2.1]
      rfl
  · funext a b
    by_cases hab : a < 5 ∧ b < 5
    · exact (hin a hab.1 b hab.2).2.2
    · have hout := sweep_out simC3_3.grid simC3_3.predatorHunger simC3_3.preyHunger
        simC3_3.params simC3_3.size orderC3 rng0 a b (by decide) horder hab
      rw [hfields.2.2.1, hout.2.2]
      rfl

/-- C3 counterexample: in the single-predator scenario (5×5 torus, death
probability 0, `predator_starvation_steps = 3`), after exactly 3 generations
the predator's cell is *not* Empty — the predator is still there with hunger
3.  The claim that the cell is Empty after exactly 3 generations is false. -/
theorem predator_cell_not_empty_after_3 :
    (stepC3 (stepC3 (stepC3 simC3))).grid 2 2 = PREDATOR ∧
    (stepC3 (stepC3 (stepC3 simC3))).predatorHunger 2 2 = 3 ∧
    ¬((stepC3 (stepC3 (stepC3 simC3))).grid 2 2 = EMPTY) := by
  rw [c3_step1, c3_step2, c3_step3]
  exact ⟨rfl, rfl, by decide⟩

/-- C3 (amended): a surviving predator that never feeds has strictly
increasing hunger (1, 2, 3 after generations 1–3) and is removed in the
first generation that *starts* with hunger at the starvation threshold — one
generation after the hunger reaches it.  In the single-predator scenario
(5×5 torus, death probability 0, `predator_starvation_steps = 3`) the cell
becomes Empty after exactly 4 generations, the grid then containing no
predator at all. -/
theorem predator_starves_one_generation_after_threshold :
    (stepC3 simC3).predatorHunger 2 2 = 1 ∧
    (stepC3 simC3).grid 2 2 = PREDATOR ∧
    (stepC3 (stepC3 simC3)).predatorHunger 2 2 = 2 ∧
    (stepC3 (stepC3 simC3)).grid 2 2 = PREDATOR ∧
    (stepC3 (stepC3 (stepC3 simC3))).predatorHunger 2 2 = 3 ∧
    (stepC3 (stepC3 (stepC3 simC3))).grid 2 2 = PREDATOR ∧
    (stepC3 (stepC3 (stepC3 (stepC3 simC3)))).grid 2 2 = EMPTY ∧
    countCells 5 (stepC3 (stepC3 (stepC3 (stepC3 simC3)))).grid PREDATOR = 0 := by
  rw [c3_step1, c3_step2, c3_step3, c3_step4]
  exact ⟨rfl, rfl, rfl, rfl, rfl, rfl, rfl, by decide⟩

/-! ## The hunger invariant (claim C2)

`HungerOk` is the forward direction of the documented hunger-array invariant:
every predator cell carries a nonnegative predator-hunger and every prey cell
a nonnegative prey-hunger.  During a sweep the invariant holds in the
refined form `SweepInv`: a predator/prey cell of the buffer either already
carries a nonnegative hunger (it was written during this sweep) or it is an
unprocessed copied cell whose coordinate still lies in the remaining
processing order. -/

def HungerOk (size : Nat) (g : Grid) (ph prh : Hunger) : Prop :=
  ∀ x, x < size → ∀ y, y < size →
    (g x y = PREDATOR → 0 ≤ ph x y) ∧ (g x y = PREY → 0 ≤ prh x y)

/-- The per-cell sweep invariant. -/
def CellInv (g : Grid) (rem : List (Nat × Nat)) (rs : RuleSt) (x y : Nat) :
    Prop :=
  (rs.newGrid x y = PREDATOR →
    0 ≤ rs.newPh x y ∨ ((x, y) ∈ rem ∧ rs.newGrid x y = g x y)) ∧
  (rs.newGrid x y = PREY →
    0 ≤ rs.newPrh x y ∨ ((x, y) ∈ rem ∧ rs.newGrid x y = g x y))

def SweepInv (size : Nat) (g : Grid) (rem : List (Nat × Nat)) (rs : RuleSt) :
    Prop :=
  ∀ x, x < size → ∀ y, y < size → CellInv g rem rs x y

/-- Removing the head of the remaining order keeps the per-cell invariant at
every other coordinate. -/
theorem CellInv.shrink {g : Grid} {c : Nat × Nat} {rem : List (Nat × Nat)}
    {rs : RuleSt} {x y : Nat} (h : CellInv g (c :: rem) rs x y)
    (hne : ¬(x = c.1 ∧ y = c.2)) : CellInv g rem rs x y := by
  have hmem : (x, y) ∈ c :: rem → (x, y) ∈ rem := by
    intro hm
    rcases List.mem_cons.mp hm with hm | hm
    · exact absurd ⟨congrArg Prod.fst hm, congrArg Prod.snd hm⟩ hne
    · exact hm
  exact ⟨fun hc => (h.1 hc).imp id (fun ⟨hm, he⟩ => ⟨hmem hm, he⟩),
         fun hc => (h.2 hc).imp id (fun ⟨hm, he⟩ => ⟨hmem hm, he⟩)⟩

/-! Write-pattern lemmas: each matches one contiguous write sequence of the
source rules and shows it re-establishes the per-cell invariant, needing the
previous invariant only away from the written coordinates. -/

/-- Writing a non-entity value (EMPTY or SUBSTRATE). -/
theorem cellInv_setG_nonentity {g : Grid} {rem : List (Nat × Nat)}
    {rs : RuleSt} (u v : Nat) (w : Cell) (hw : w ≠ PREDATOR ∧ w ≠ PREY)
    {x y : Nat} (hprev : ¬(x = u ∧ y = v) → CellInv g rem rs x y) :
    CellInv g rem (rs.setG u v w) x y := by
  by_cases hc : x = u ∧ y = v
  · constructor <;> intro hcell <;>
      rw [show (rs.setG u v w).newGrid x y = w from by
        simp [RuleSt.setG, upd2, hc]] at hcell
    · exact absurd hcell hw.1
    · exact absurd hcell hw.2
  · have h := hprev hc
    have hg : (rs.setG u v w).newGrid x y = rs.newGrid x y := upd2_ne _ _ _ _ _ _ hc
    exact ⟨fun hcell => by rw [hg] at hcell ⊢; exact h.1 hcell,
           fun hcell => by rw [hg] at hcell ⊢; exact h.2 hcell⟩

/-- A nonnegative predator-hunger write (`new_predator_hunger[x,y] = h`), at
a cell that is not currently a prey cell of the buffer. -/
theorem cellInv_setPh_nonneg {g : Grid} {rem : List (Nat × Nat)}
    {rs : RuleSt} (u v : Nat) (w : Int) (hw : 0 ≤ w)
    {x y : Nat} (hprev : ¬(x = u ∧ y = v) → CellInv g rem rs x y)
    (hguard : x = u ∧ y = v → rs.newGrid u v ≠ PREY) :
    CellInv g rem (rs.setPh u v w) x y := by
  by_cases hc : x = u ∧ y = v
  · refine ⟨fun _ => Or.inl ?_, fun hcell => ?_⟩
    · rw [show (rs.setPh u v w).newPh x y = w from by
        simp [RuleSt.setPh, upd2, hc]]
      exact hw
    · rw [show (rs.setPh u v w).newGrid x y = rs.newGrid u v from by
        rw [hc.1, hc.2]; rfl] at hcell
      exact absurd hcell (hguard hc)
  · have h := hprev hc
    have hp : (rs.setPh u v w).newPh x y = rs.newPh x y := upd2_ne _ _ _ _ _ _ hc
    exact ⟨fun hcell => by rw [hp]; exact h.1 hcell, fun hcell => h.2 hcell⟩

/-- A nonnegative prey-hunger write, at a cell that is not currently a
predator cell of the buffer. -/
theorem cellInv_setPrh_nonneg {g : Grid} {rem : List (Nat × Nat)}
    {rs : RuleSt} (u v : Nat) (w : Int) (hw : 0 ≤ w)
    {x y : Nat} (hprev : ¬(x = u ∧ y = v) → CellInv g rem rs x y)
    (hguard : x = u ∧ y = v → rs.newGrid u v ≠ PREDATOR) :
    CellInv g rem (rs.setPrh u v w) x y := by
  by_cases hc : x = u ∧ y = v
  · refine ⟨fun hcell => ?_, fun _ => Or.inl ?_⟩
    · rw [show (rs.setPrh u v w).newGrid x y = rs.newGrid u v from by
        rw [hc.1, hc.2]; rfl] at hcell
      exact absurd hcell (hguard hc)
    · rw [show (rs.setPrh u v w).newPrh x y = w from by
        simp [RuleSt.setPrh, upd2, hc]]
      exact hw
  · have h := hprev hc
    have hp : (rs.setPrh u v w).newPrh x y = rs.newPrh x y := upd2_ne _ _ _ _ _ _ hc
    exact ⟨fun hcell => h.1 hcell, fun hcell => by rw [hp]; exact h.2 hcell⟩

/-- Spawning a predator with hunger 0 (`new_grid[u,v] = PREDATOR;
new_predator_hunger[u,v] = 0`). -/
theorem cellInv_spawn_predator {g : Grid} {rem : List (Nat × Nat)}
    {rs : RuleSt} (u v : Nat)
    {x y : Nat} (hprev : ¬(x = u ∧ y = v) → CellInv g rem rs x y) :
    CellInv g rem ((rs.setG u v PREDATOR).setPh u v 0) x y := by
  by_cases hc : x = u ∧ y = v
  · refine ⟨fun _ => Or.inl ?_, fun hcell => ?_⟩
    · rw [show ((rs.setG u v PREDATOR).setPh u v 0).newPh x y = 0 from by
        simp [RuleSt.setPh, RuleSt.setG, upd2, hc]]
    · rw [show ((rs.setG u v PREDATOR).setPh u v 0).newGrid x y = PREDATOR from by
        simp [RuleSt.setPh, RuleSt.setG, upd2, hc]] at hcell
      exact absurd hcell (by decide)
  · have h := hprev hc
    have hg : ((rs.setG u v PREDATOR).setPh u v 0).newGrid x y = rs.newGrid x y :=
      upd2_ne _ _ _ _ _ _ hc
    have hp : ((rs.setG u v PREDATOR).setPh u v 0).newPh x y = rs.newPh x y :=
      upd2_ne _ _ _ _ _ _ hc
    exact ⟨fun hcell => by rw [hg] at hcell ⊢; rw [hp]; exact h.1 hcell,
           fun hcell => by rw [hg] at hcell ⊢; exact h.2 hcell⟩

/-- Spawning a prey with hunger 0. -/
theorem cellInv_spawn_prey {g : Grid} {rem : List (Nat × Nat)}
    {rs : RuleSt} (u v : Nat)
    {x y : Nat} (hprev : ¬(x = u ∧ y = v) → CellInv g rem rs x y) :
    CellInv g rem ((rs.setG u v PREY).setPrh u v 0) x y := by
  by_cases hc : x = u ∧ y = v
  · refine ⟨fun hcell => ?_, fun _ => Or.inl ?_⟩
    · rw [show ((rs.setG u v PREY).setPrh u v 0).newGrid x y = PREY from by
        simp [RuleSt.setPrh, RuleSt.setG, upd2, hc]] at hcell
      exact absurd hcell (by decide)
    · rw [show ((rs.setG u v PREY).setPrh u v 0).newPrh x y = 0 from by
        simp [RuleSt.setPrh, RuleSt.setG, upd2, hc]]
  · have h := hprev hc
    have hg : ((rs.setG u v PREY).setPrh u v 0).newGrid x y = rs.newGrid x y :=
      upd2_ne _ _ _ _ _ _ hc
    have hp : ((rs.setG u v PREY).setPrh u v 0).newPrh x y = rs.newPrh x y :=
      upd2_ne _ _ _ _ _ _ hc
    exact ⟨fun hcell => by rw [hg] at hcell ⊢; exact h.1 hcell,
           fun hcell => by rw [hg] at hcell ⊢; rw [hp]; exact h.2 hcell⟩

/-- The predator move/hunt write sequence: occupy the destination with
hunger `h ≥ 0`, vacate the origin (grid to EMPTY, hunger to −1). -/
theorem cellInv_move_predator {g : Grid} {rem : List (Nat × Nat)}
    {rs : RuleSt} (d1 d2 o1 o2 : Nat) (h : Int) (hh : 0 ≤ h)
    {x y : Nat}
    (hprev : ¬(x = d1 ∧ y = d2) → ¬(x = o1 ∧ y = o2) → CellInv g rem rs x y) :
    CellInv g rem
      ((((rs.setG d1 d2 PREDATOR).setG o1 o2 EMPTY).setPh d1 d2 h).setPh o1 o2
        (-1)) x y := by
  by_cases ho : x = o1 ∧ y = o2
  · have hg : ((((rs.setG d1 d2 PREDATOR).setG o1 o2 EMPTY).setPh d1 d2
        h).setPh o1 o2 (-1)).newGrid x y = EMPTY := by
      simp [RuleSt.setG, RuleSt.setPh, upd2, ho]
    refine ⟨fun hcell => ?_, fun hcell => ?_⟩ <;> rw [hg] at hcell <;>
      exact absurd hcell (by decide)
  · by_cases hd : x = d1 ∧ y = d2
    · have honeg : ¬(d1 = o1 ∧ d2 = o2) := by
        rw [← hd.1, ← hd.2]
        exact ho
      have hg : ((((rs.setG d1 d2 PREDATOR).setG o1 o2 EMPTY).setPh d1 d2
          h).setPh o1 o2 (-1)).newGrid x y = PREDATOR := by
        simp [RuleSt.setG, RuleSt.setPh, upd2, hd.1, hd.2, honeg]
      have hp : ((((rs.setG d1 d2 PREDATOR).setG o1 o2 EMPTY).setPh d1 d2
          h).setPh o1 o2 (-1)).newPh x y = h := by
        simp [RuleSt.setG, RuleSt.setPh, upd2, hd.1, hd.2, honeg]
      refine ⟨fun _ => Or.inl (by rw [hp]; exact hh), fun hcell => ?_⟩
      rw [hg] at hcell
      exact absurd hcell (by decide)
    · have hc := hprev hd ho
      have hg : ((((rs.setG d1 d2 PREDATOR).setG o1 o2 EMPTY).setPh d1 d2
          h).setPh o1 o2 (-1)).newGrid x y = rs.newGrid x y := by
        simp [RuleSt.setG, RuleSt.setPh, upd2, hd, ho]
      have hp : ((((rs.setG d1 d2 PREDATOR).setG o1 o2 EMPTY).setPh d1 d2
          h).setPh o1 o2 (-1)).newPh x y = rs.newPh x y := by
        simp [RuleSt.setG, RuleSt.setPh, upd2, hd, ho]
      refine ⟨fun hcell => ?_, fun hcell => ?_⟩
      · rw [hg] at hcell ⊢
        rw [hp]
        exact hc.1 hcell
      · rw [hg] at hcell ⊢
        exact hc.2 hcell

/-- The prey move write sequence. -/
theorem cellInv_move_prey {g : Grid} {rem : List (Nat × Nat)}
    {rs : RuleSt} (d1 d2 o1 o2 : Nat) (h : Int) (hh : 0 ≤ h)
    {x y : Nat}
    (hprev : ¬(x = d1 ∧ y = d2) → ¬(x = o1 ∧ y = o2) → CellInv g rem rs x y) :
    CellInv g rem
      ((((rs.setG d1 d2 PREY).setG o1 o2 EMPTY).setPrh d1 d2 h).setPrh o1 o2
        (-1)) x y := by
  by_cases ho : x = o1 ∧ y = o2
  · have hg : ((((rs.setG d1 d2 PREY).setG o1 o2 EMPTY).setPrh d1 d2
        h).setPrh o1 o2 (-1)).newGrid x y = EMPTY := by
      simp [RuleSt.setG, RuleSt.setPrh, upd2, ho]
    refine ⟨fun hcell => ?_, fun hcell => ?_⟩ <;> rw [hg] at hcell <;>
      exact absurd hcell (by decide)
  · by_cases hd : x = d1 ∧ y = d2
    · have honeg : ¬(d1 = o1 ∧ d2 = o2) := by
        rw [← hd.1, ← hd.2]
        exact ho
      have hg : ((((rs.setG d1 d2 PREY).setG o1 o2 EMPTY).setPrh d1 d2
          h).setPrh o1 o2 (-1)).newGrid x y = PREY := by
        simp [RuleSt.setG, RuleSt.setPrh, upd2, hd.1, hd.2, honeg]
      have hp : ((((rs.setG d1 d2 PREY).setG o1 o2 EMPTY).setPrh d1 d2
          h).setPrh o1 o2 (-1)).newPrh x y = h := by
        simp [RuleSt.setG, RuleSt.setPrh, upd2, hd.1, hd.2, honeg]
      refine ⟨fun hcell => ?_, fun _ => Or.inl (by rw [hp]; exact hh)⟩
      rw [hg] at hcell
      exact absurd hcell (by decide)
    · have hc := hprev hd ho
      have hg : ((((rs.setG d1 d2 PREY).setG o1 o2 EMPTY).setPrh d1 d2
          h).setPrh o1 o2 (-1)).newGrid x y = rs.newGrid x y := by
        simp [RuleSt.setG, RuleSt.setPrh, upd2, hd, ho]
      have hp : ((((rs.setG d1 d2 PREY).setG o1 o2 EMPTY).setPrh d1 d2
          h).setPrh o1 o2 (-1)).newPrh x y = rs.newPrh x y := by
        simp [RuleSt.setG, RuleSt.setPrh, upd2, hd, ho]
      refine ⟨fun hcell => ?_, fun hcell => ?_⟩
      · rw [hg] at hcell ⊢
        exact hc.1 hcell
      · rw [hg] at hcell ⊢
        rw [hp]
        exact hc.2 hcell

theorem predatorMovePhase_inv {g : Grid} {rem : List (Nat × Nat)}
    (p : Params) (size x0 y0 : Nat) (cur : Int) (hcur : 0 ≤ cur)
    (st : RuleSt) (hcell : st.newGrid x0 y0 = PREDATOR)
    {x y : Nat} (hprev : ¬(x = x0 ∧ y = y0) → CellInv g rem st x y) :
    CellInv g rem (predatorMovePhase g p size x0 y0 cur st) x y := by
  have hguard : x = x0 ∧ y = y0 → st.newGrid x0 y0 ≠ PREY := fun _ => by
    rw [hcell]
    decide
  have hbump : CellInv g rem (st.setPh x0 y0 (cur + 1)) x y :=
    cellInv_setPh_nonneg x0 y0 (cur + 1) (by omega) hprev hguard
  unfold predatorMovePhase
  dsimp only
  split
  · exact hbump
  · split
    · exact cellInv_move_predator _ _ x0 y0 (cur + 1) (by omega)
        (fun _ _ => hbump)
    · exact hbump

theorem predatorHuntPhase_inv {g : Grid} {rem : List (Nat × Nat)}
    (p : Params) (size x0 y0 : Nat) (prey_neighbors : List (Nat × Nat))
    (st : RuleSt)
    {x y : Nat} (hprev : ¬(x = x0 ∧ y = y0) → CellInv g rem st x y) :
    CellInv g rem (predatorHuntPhase g p size x0 y0 prey_neighbors st) x y := by
  have hP1 : CellInv g rem
      (((((st.pick prey_neighbors).2.setG (st.pick prey_neighbors).1.1
          (st.pick prey_neighbors).1.2 PREDATOR).setG x0 y0 EMPTY).setPh
          (st.pick prey_neighbors).1.1 (st.pick prey_neighbors).1.2 0).setPh
          x0 y0 (-1)) x y :=
    cellInv_move_predator _ _ x0 y0 0 le_rfl (fun _ hno => hprev hno)
  unfold predatorHuntPhase
  dsimp only
  split
  · split
    · exact hP1
    · exact cellInv_spawn_predator _ _ (fun _ => hP1)
  · exact hP1

theorem updatePredator_inv {g : Grid} {rem : List (Nat × Nat)}
    (ph : Hunger) (p : Params) (size x0 y0 : Nat) (st : RuleSt)
    (hph : 0 ≤ ph x0 y0) (hgc : g x0 y0 = PREDATOR)
    (hrs : st.newGrid x0 y0 = g x0 y0)
    {x y : Nat} (hprev : ¬(x = x0 ∧ y = y0) → CellInv g rem st x y) :
    CellInv g rem (updatePredator g ph p size x0 y0 st).1 x y := by
  have hcell : st.newGrid x0 y0 = PREDATOR := hrs.trans hgc
  unfold updatePredator
  dsimp only
  split
  · exact cellInv_setG_nonentity x0 y0 EMPTY (by decide) hprev
  · split
    · exact cellInv_setG_nonentity x0 y0 EMPTY (by decide) hprev
    · rename_i hstarve
      split
      · rename_i hzero
        exact absurd hph (by omega)
      · split
        · exact predatorMovePhase_inv p size x0 y0 _ hph st.draw.2 hcell hprev
        · split
          · exact predatorHuntPhase_inv p size x0 y0 _ st.draw.2.draw.2 hprev
          · exact predatorMovePhase_inv p size x0 y0 _ hph st.draw.2.draw.2 hcell
              hprev

theorem preyForagePhase_inv {g : Grid} {rem : List (Nat × Nat)}
    (p : Params) (size x0 y0 : Nat) (nh : Int) (hnh : 0 ≤ nh)
    (st : RuleSt) (hgc : g x0 y0 = PREY)
    (hrsg : st.newGrid x0 y0 = PREY) (hp0 : 0 ≤ st.newPrh x0 y0)
    {x y : Nat} (hprev : ¬(x = x0 ∧ y = y0) → CellInv g rem st x y) :
    CellInv g rem (preyForagePhase g p size x0 y0 nh st) x y := by
  have hfull : CellInv g rem st x y := by
    by_cases hc : x = x0 ∧ y = y0
    · refine ⟨fun hcell => ?_, fun _ => Or.inl ?_⟩
      · rw [hc.1, hc.2, hrsg] at hcell
        exact absurd hcell (by decide)
      · rw [hc.1, hc.2]
        exact hp0
    · exact hprev hc
  unfold preyForagePhase
  dsimp only
  split
  · -- substrate found
    rename_i hd tl heq
    have hsne : (getNearbyCells p.grid_type p.neighborhood_type size x0 y0
        1).filter (fun c => decide (g c.1 c.2 = SUBSTRATE)) ≠ [] := by
      rw [heq]
      exact List.cons_ne_nil _ _
    have hsmem := RuleSt.pick_mem st _ hsne
    have hsg : g (st.pick ((getNearbyCells p.grid_type p.neighborhood_type size
        x0 y0 1).filter (fun c => decide (g c.1 c.2 = SUBSTRATE)))).1.1
        (st.pick ((getNearbyCells p.grid_type p.neighborhood_type size x0 y0
          1).filter (fun c => decide (g c.1 c.2 = SUBSTRATE)))).1.2 =
        SUBSTRATE :=
      of_decide_eq_true (List.mem_filter.mp hsmem).2
    have hne_s : ¬(x0 = (st.pick ((getNearbyCells p.grid_type
        p.neighborhood_type size x0 y0 1).filter (fun c => decide (g c.1 c.2 =
        SUBSTRATE)))).1.1 ∧ y0 = (st.pick ((getNearbyCells p.grid_type
        p.neighborhood_type size x0 y0 1).filter (fun c => decide (g c.1 c.2 =
        SUBSTRATE)))).1.2) := by
      intro hcon
      rw [← hcon.1, ← hcon.2] at hsg
      rw [hgc] at hsg
      exact absurd hsg (by decide)
    have h3 : CellInv g rem ((st.pick ((getNearbyCells p.grid_type
        p.neighborhood_type size x0 y0 1).filter (fun c => decide (g c.1 c.2 =
        SUBSTRATE)))).2.setG (st.pick ((getNearbyCells p.grid_type
        p.neighborhood_type size x0 y0 1).filter (fun c => decide (g c.1 c.2 =
        SUBSTRATE)))).1.1 (st.pick ((getNearbyCells p.grid_type
        p.neighborhood_type size x0 y0 1).filter (fun c => decide (g c.1 c.2 =
        SUBSTRATE)))).1.2 EMPTY) x y :=
      cellInv_setG_nonentity _ _ EMPTY (by decide) (fun _ => hfull)
    have hguard4 : x = x0 ∧ y = y0 → ((st.pick ((getNearbyCells p.grid_type
        p.neighborhood_type size x0 y0 1).filter (fun c => decide (g c.1 c.2 =
        SUBSTRATE)))).2.setG (st.pick ((getNearbyCells p.grid_type
        p.neighborhood_type size x0 y0 1).filter (fun c => decide (g c.1 c.2 =
        SUBSTRATE)))).1.1 (st.pick ((getNearbyCells p.grid_type
        p.neighborhood_type size x0 y0 1).filter (fun c => decide (g c.1 c.2 =
        SUBSTRATE)))).1.2 EMPTY).newGrid x0 y0 ≠ PREDATOR := by
      intro _
      have hu : ((st.pick ((getNearbyCells p.grid_type p.neighborhood_type size
          x0 y0 1).filter (fun c => decide (g c.1 c.2 = SUBSTRATE)))).2.setG
          (st.pick ((getNearbyCells p.grid_type p.neighborhood_type size x0 y0
          1).filter (fun c => decide (g c.1 c.2 = SUBSTRATE)))).1.1
          (st.pick ((getNearbyCells p.grid_type p.neighborhood_type size x0 y0
          1).filter (fun c => decide (g c.1 c.2 = SUBSTRATE)))).1.2
          EMPTY).newGrid x0 y0 = st.newGrid x0 y0 :=
        upd2_ne _ _ _ _ _ _ hne_s
      rw [hu, hrsg]
      decide
    have h4 : CellInv g rem (((st.pick ((getNearbyCells p.grid_type
        p.neighborhood_type size x0 y0 1).filter (fun c => decide (g c.1 c.2 =
        SUBSTRATE)))).2.setG (st.pick ((getNearbyCells p.grid_type
        p.neighborhood_type size x0 y0 1).filter (fun c => decide (g c.1 c.2 =
        SUBSTRATE)))).1.1 (st.pick ((getNearbyCells p.grid_type
        p.neighborhood_type size x0 y0 1).filter (fun c => decide (g c.1 c.2 =
        SUBSTRATE)))).1.2 EMPTY).setPrh x0 y0 0) x y :=
      cellInv_setPrh_nonneg x0 y0 0 le_rfl (fun _ => h3) hguard4
    split
    · split
      · exact h4
      · exact cellInv_spawn_prey _ _ (fun _ => h4)
    · exact h4
  · -- no substrate
    split
    · exact hfull
    · exact cellInv_move_prey _ _ x0 y0 nh hnh (fun _ _ => hfull)

theorem updatePrey_inv {g : Grid} {rem : List (Nat × Nat)}
    (prh : Hunger) (p : Params) (size x0 y0 : Nat) (st : RuleSt)
    (hprh : 0 ≤ prh x0 y0) (hgc : g x0 y0 = PREY)
    (hrs : st.newGrid x0 y0 = g x0 y0)
    {x y : Nat} (hprev : ¬(x = x0 ∧ y = y0) → CellInv g rem st x y) :
    CellInv g rem (updatePrey g prh p size x0 y0 st) x y := by
  have hcell : st.newGrid x0 y0 = PREY := hrs.trans hgc
  have hguard : x = x0 ∧ y = y0 → st.draw.2.newGrid x0 y0 ≠ PREDATOR :=
    fun _ => by
      rw [show st.draw.2.newGrid x0 y0 = st.newGrid x0 y0 from rfl, hcell]
      decide
  have hbump : CellInv g rem (st.draw.2.setPrh x0 y0 (prh x0 y0 + 1)) x y :=
    cellInv_setPrh_nonneg x0 y0 (prh x0 y0 + 1) (by omega) hprev hguard
  have hbgrid : (st.draw.2.setPrh x0 y0 (prh x0 y0 + 1)).newGrid x0 y0 = PREY :=
    hcell
  have hbp0 : 0 ≤ (st.draw.2.setPrh x0 y0 (prh x0 y0 + 1)).newPrh x0 y0 := by
    show 0 ≤ upd2 st.draw.2.newPrh x0 y0 (prh x0 y0 + 1) x0 y0
    rw [upd2_same]
    omega
  unfold updatePrey
  dsimp only
  split
  · exact cellInv_setG_nonentity x0 y0 EMPTY (by decide) hprev
  · split
    · exact cellInv_setG_nonentity x0 y0 EMPTY (by decide) hprev
    · split
      · -- a predator is nearby
        split
        · exact hbump
        · exact preyForagePhase_inv p size x0 y0 _ (by omega)
            (st.draw.2.setPrh x0 y0 (prh x0 y0 + 1)).draw.2 hgc hbgrid hbp0
            (fun _ => hbump)
      · -- no predator nearby
        split
        · rename_i hfalse
          exact absurd hfalse (by simp)
        · exact preyForagePhase_inv p size x0 y0 _ (by omega)
            (st.draw.2.setPrh x0 y0 (prh x0 y0 + 1)) hgc hbgrid hbp0
            (fun _ => hbump)

theorem updateSubstrate_inv {g : Grid} {rem : List (Nat × Nat)}
    (p : Params) (x0 y0 : Nat) (st : RuleSt)
    (hgc : g x0 y0 = SUBSTRATE) (hrs : st.newGrid x0 y0 = g x0 y0)
    {x y : Nat} (hprev : ¬(x = x0 ∧ y = y0) → CellInv g rem st x y) :
    CellInv g rem (updateSubstrate p x0 y0 st) x y := by
  have hfull : CellInv g rem st x y := by
    by_cases hc : x = x0 ∧ y = y0
    · refine ⟨fun hcell => ?_, fun hcell => ?_⟩ <;>
        rw [hc.1, hc.2, hrs.trans hgc] at hcell <;>
        exact absurd hcell (by decide)
    · exact hprev hc
  unfold updateSubstrate
  dsimp only
  split
  · exact cellInv_setG_nonentity x0 y0 EMPTY (by decide) (fun _ => hfull)
  · exact hfull

theorem updateEmpty_inv {g : Grid} {rem : List (Nat × Nat)}
    (p : Params) (size x0 y0 : Nat) (st : RuleSt)
    (hgc : g x0 y0 = EMPTY) (hrs : st.newGrid x0 y0 = g x0 y0)
    {x y : Nat} (hprev : ¬(x = x0 ∧ y = y0) → CellInv g rem st x y) :
    CellInv g rem (updateEmpty g p size x0 y0 st) x y := by
  have hfull : CellInv g rem st x y := by
    by_cases hc : x = x0 ∧ y = y0
    · refine ⟨fun hcell => ?_, fun hcell => ?_⟩ <;>
        rw [hc.1, hc.2, hrs.trans hgc] at hcell <;>
        exact absurd hcell (by decide)
    · exact hprev hc
  unfold updateEmpty
  dsimp only
  split
  · split
    · exact cellInv_spawn_predator x0 y0 (fun _ => hfull)
    · split
      · exact cellInv_setG_nonentity x0 y0 SUBSTRATE (by decide) (fun _ => hfull)
      · exact hfull
  · split
    · rename_i hfalse
      exact absurd hfalse (by simp)
    · split
      · exact cellInv_setG_nonentity x0 y0 SUBSTRATE (by decide) (fun _ => hfull)
      · exact hfull

theorem processCell_inv (g : Grid) (ph prh : Hunger) (p : Params)
    (size : Nat) (st : SweepSt) (c : Nat × Nat) (rem : List (Nat × Nat))
    (hold : HungerOk size g ph prh) (hc : c.1 < size ∧ c.2 < size)
    (hinv : SweepInv size g (c :: rem) st.rs) :
    SweepInv size g rem (processCell g ph prh p size st c).rs := by
  intro x hx y hy
  have hcinv := hinv x hx y hy
  unfold processCell
  dsimp only
  split
  · rename_i hski
    by_cases hxy : x = c.1 ∧ y = c.2
    · refine ⟨fun hcell => ?_, fun hcell => ?_⟩
      · rcases hcinv.1 hcell with h | ⟨_, heqg⟩
        · exact Or.inl h
        · rw [hxy.1, hxy.2] at heqg
          exact absurd heqg hski
      · rcases hcinv.2 hcell with h | ⟨_, heqg⟩
        · exact Or.inl h
        · rw [hxy.1, hxy.2] at heqg
          exact absurd heqg hski
    · exact hcinv.shrink hxy
  · rename_i hnsk
    have hrs : st.rs.newGrid c.1 c.2 = g c.1 c.2 := not_ne_iff.mp hnsk
    have hprev : ¬(x = c.1 ∧ y = c.2) → CellInv g rem st.rs x y :=
      fun hne => hcinv.shrink hne
    split
    · rename_i hgP
      have hph0 : 0 ≤ ph c.1 c.2 := (hold c.1 hc.1 c.2 hc.2).1 hgP
      split
      · rename_i herr
        have hok := updatePredator_no_div_by_zero g ph p size c.1 c.2 st.rs hph0
        rw [hok] at herr
        exact absurd herr (by simp)
      · exact updatePredator_inv ph p size c.1 c.2 st.rs hph0 hgP hrs hprev
    · split
      · rename_i hgY
        have hprh0 : 0 ≤ prh c.1 c.2 := (hold c.1 hc.1 c.2 hc.2).2 hgY
        exact updatePrey_inv prh p size c.1 c.2 st.rs hprh0 hgY hrs hprev
      · split
        · rename_i hgS
          exact updateSubstrate_inv p c.1 c.2 st.rs hgS hrs hprev
        · split
          · rename_i hgE
            exact updateEmpty_inv p size c.1 c.2 st.rs hgE hrs hprev
          · rename_i hnP hnY hnS hnE
            by_cases hxy : x = c.1 ∧ y = c.2
            · refine ⟨fun hcell => ?_, fun hcell => ?_⟩
              · rw [hxy.1, hxy.2, hrs] at hcell
                exact absurd hcell hnP
              · rw [hxy.1, hxy.2, hrs] at hcell
                exact absurd hcell hnY
            · exact hcinv.shrink hxy

theorem foldl_inv (g : Grid) (ph prh : Hunger) (p : Params) (size : Nat)
    (hold : HungerOk size g ph prh) :
    ∀ (order : List (Nat × Nat)) (st : SweepSt),
      (∀ c ∈ order, c.1 < size ∧ c.2 < size) →
      SweepInv size g order st.rs →
      SweepInv size g [] ((order.foldl (processCell g ph prh p size) st)).rs := by
  intro order
  induction order with
  | nil =>
    intro st _ h
    simpa using h
  | cons c t ih =>
    intro st hord hinv
    simp only [List.foldl_cons]
    exact ih _ (fun d hd => hord d (List.mem_cons_of_mem _ hd))
      (processCell_inv g ph prh p size st c t hold
        (hord c (List.mem_cons_self _ _)) hinv)

/-- C2 (amended): after initialization the hunger invariant holds in full
(the counter is −1 iff the co-located cell is not of that kind, and 0 at
every predator/prey cell); after each completed generation the forward
direction is preserved: every predator cell carries a nonnegative
predator-hunger and every prey cell a nonnegative prey-hunger.  (The reverse
direction can fail after a generation — see the counterexample — because a
later-processed rule that overwrites a destination cell leaves the other
kind's hunger entry behind.) -/
theorem hunger_invariant_init_and_forward_preserved :
    (∀ size g p rec adj now x y,
      (((Simulation.init size g p rec adj now).predatorHunger x y = -1) ↔
        ¬(g x y = PREDATOR)) ∧
      (g x y = PREDATOR →
        (Simulation.init size g p rec adj now).predatorHunger x y = 0) ∧
      (((Simulation.init size g p rec adj now).preyHunger x y = -1) ↔
        ¬(g x y = PREY)) ∧
      (g x y = PREY →
        (Simulation.init size g p rec adj now).preyHunger x y = 0)) ∧
    (∀ (s : Simulation) (order : List (Nat × Nat)) (rng : RNG) (now : String),
      (∀ x, x < s.size → ∀ y, y < s.size → (x, y) ∈ order) →
      (∀ c ∈ order, c.1 < s.size ∧ c.2 < s.size) →
      HungerOk s.size s.grid s.predatorHunger s.preyHunger →
      HungerOk s.size (stepSim s order rng now).grid
        (stepSim s order rng now).predatorHunger
        (stepSim s order rng now).preyHunger) := by
  constructor
  · intro size g p rec adj now x y
    refine ⟨?_, ?_, ?_, ?_⟩
    · by_cases h : g x y = PREDATOR <;> simp [Simulation.init, h]
    · intro h
      simp [Simulation.init, h]
    · by_cases h : g x y = PREY <;> simp [Simulation.init, h]
    · intro h
      simp [Simulation.init, h]
  · intro s order rng now hcov hord hold
    have hfields := stepSim_fields s order rng now
    rw [hfields.1, hfields.2.1, hfields.2.2.1]
    have hinit : SweepInv s.size s.grid order
        { newGrid := s.grid
          newPh := fun _ _ => -1
          newPrh := fun _ _ => -1
          rng := rng
          writes := fun _ _ => 0 } := by
      intro x hx y hy
      exact ⟨fun _ => Or.inr ⟨hcov x hx y hy, rfl⟩,
             fun _ => Or.inr ⟨hcov x hx y hy, rfl⟩⟩
    have hswp := foldl_inv s.grid s.predatorHunger s.preyHunger s.params
      s.size hold order
      { rs :=
          { newGrid := s.grid
            newPh := fun _ _ => -1
            newPrh := fun _ _ => -1
            rng := rng
            writes := fun _ _ => 0 }
        dispatches := fun _ _ => 0 } hord hinit
    intro x hx y hy
    have h := hswp x hx y hy
    refine ⟨fun hcell => ?_, fun hcell => ?_⟩
    · rcases h.1 hcell with h0 | ⟨hm, _⟩
      · exact h0
      · exact absurd hm (List.not_mem_nil _)
    · rcases h.2 hcell with h0 | ⟨hm, _⟩
      · exact h0
      · exact absurd hm (List.not_mem_nil _)

instance (size : Nat) (g : Grid) (ph prh : Hunger) :
    Decidable (HungerOk size g ph prh) :=
  inferInstanceAs (Decidable (∀ x, x < size → ∀ y, y < size →
    (g x y = PREDATOR → 0 ≤ ph x y) ∧ (g x y = PREY → 0 ≤ prh x y)))

/-- Witness for C2's amended claim: the initialization invariant at a point
of the 3×3 scenario and the forward invariant after one generation of the
5×5 starvation scenario. -/
theorem hunger_invariant_init_and_forward_preserved_witness :
    ((((Simulation.init 3 gridC12 paramsC12 false adjNone "t0").predatorHunger
        0 2 = -1) ↔ ¬(gridC12 0 2 = PREDATOR)) ∧
      (gridC12 0 2 = PREDATOR →
        (Simulation.init 3 gridC12 paramsC12 false adjNone "t0").predatorHunger
          0 2 = 0) ∧
      (((Simulation.init 3 gridC12 paramsC12 false adjNone "t0").preyHunger
        0 2 = -1) ↔ ¬(gridC12 0 2 = PREY)) ∧
      (gridC12 0 2 = PREY →
        (Simulation.init 3 gridC12 paramsC12 false adjNone "t0").preyHunger
          0 2 = 0)) ∧
    HungerOk simC3.size (stepSim simC3 orderC3 rng0 "t").grid
      (stepSim simC3 orderC3 rng0 "t").predatorHunger
      (stepSim simC3 orderC3 rng0 "t").preyHunger :=
  ⟨hunger_invariant_init_and_forward_preserved.1 3 gridC12 paramsC12 false
      adjNone "t0" 0 2,
   hunger_invariant_init_and_forward_preserved.2 simC3 orderC3 rng0 "t"
     (by decide) (by decide) (by decide)⟩

/-! ## Claims C4 and C5: the density clamp and the placement counts

For claim C4 we run `initialize_grid(900, 5000, 1000, 0.0)` symbolically with
the identity permutation `List.range 810000` for the shuffle: since
`800 <= 900 < 1000` the density cap is 40% of the cells (324000 entities),
the requested 6000 entities are far below it, and the placement slices fill
exactly the requested counts, so the reconciliation pass finds nothing to
record and `values_adjusted` stays `false`.

For claim C5 the clamp formula assigns the floor share
`int(max_entities * ratio)` (with `ratio` the requested *prey* fraction) to
the *prey*, and the predators receive the remainder; the claim's
"predator share = floor(cap × ratio)" breaks as soon as the split is uneven,
e.g. for a 3×3 grid with 5 prey and 5 predators requested. -/

/-- Dropping `a` elements of `List.range N` leaves `List.range' a (N - a)`. -/
theorem range_drop_eq (a N : Nat) :
    (List.range N).drop a = List.range' a (N - a) := by
  apply List.ext_getElem
  · simp
  · intro i h1 h2
    simp [Nat.add_comm a i]

/-- Taking `b` elements of `List.range' a k` gives `List.range' a (min b k)`. -/
theorem range1_take_eq (b a k : Nat) :
    (List.range' a k).take b = List.range' a (min b k) := by
  apply List.ext_getElem
  · simp
  · intro i h1 h2
    simp

/-- Membership in the predator slice `(List.range N).take preds`. -/
theorem mem_take_range {p preds N : Nat} (h : preds ≤ N) :
    p ∈ (List.range N).take preds ↔ p < preds := by
  rw [List.take_range]
  simp [Nat.min_eq_left h]

/-- Membership in the prey slice `((List.range N).drop a).take b` when the
slice fits inside the list. -/
theorem mem_take_drop_range {p a b N : Nat} (h : a + b ≤ N) :
    p ∈ ((List.range N).drop a).take b ↔ a ≤ p ∧ p < a + b := by
  rw [range_drop_eq, range1_take_eq, Nat.min_eq_left (by omega),
    List.mem_range'_1]

/-- The number of cells `(x, y)` of the `size`×`size` index square whose flat
position `x * size + y` lies in the band `[lo, hi)` is `hi - lo`, provided
the band fits inside the square. -/
theorem card_flat_band (size lo hi : Nat) (hhi : hi ≤ size * size) :
    ((Finset.range size ×ˢ Finset.range size).filter
      (fun c => lo ≤ c.1 * size + c.2 ∧ c.1 * size + c.2 < hi)).card
      = hi - lo := by
  rcases Nat.eq_zero_or_pos size with hs | hs
  · subst hs
    have h0 : hi = 0 := by omega
    subst h0
    simp
  · rw [show hi - lo = (Finset.Ico lo hi).card from (Nat.card_Ico lo hi).symm]
    apply Finset.card_bij' (fun c _ => c.1 * size + c.2)
      (fun p _ => (p / size, p % size))
    · intro a ha
      simp only [Finset.mem_filter] at ha
      simp only [Finset.mem_Ico]
      exact ha.2
    · intro p hp
      simp only [Finset.mem_Ico] at hp
      have hdm : p / size * size + p % size = p := Nat.div_add_mod' p size
      have hplt : p / size < size :=
        (Nat.div_lt_iff_lt_mul hs).mpr (by omega)
      simp only [Finset.mem_filter, Finset.mem_product, Finset.mem_range]
      exact ⟨⟨hplt, Nat.mod_lt _ hs⟩, by omega, by omega⟩
    · intro a ha
      obtain ⟨x, y⟩ := a
      simp only [Finset.mem_filter, Finset.mem_product, Finset.mem_range] at ha
      obtain ⟨⟨h1, h2⟩, -⟩ := ha
      have e1 : (x * size + y) / size = x := by
        rw [Nat.add_comm, Nat.add_mul_div_right _ _ hs, Nat.div_eq_of_lt h2,
          Nat.zero_add]
      have e2 : (x * size + y) % size = y := by
        rw [Nat.add_comm, Nat.add_mul_mod_self_right, Nat.mod_eq_of_lt h2]
      simp only [Prod.mk.injEq]
      exact ⟨e1, e2⟩
    · intro p hp
      exact Nat.div_add_mod' p size

/-- Counting the predators placed along the identity permutation: the
predator slice fills the flat positions `[0, preds)`. -/
theorem countCells_placedGrid_pred (size prey preds : Nat)
    (h : preds + prey ≤ size * size) :
    countCells size
      (placedGrid size []
        (((List.range (size * size)).drop preds).take prey)
        ((List.range (size * size)).take preds)) PREDATOR = preds := by
  unfold countCells
  have H : ∀ c ∈ Finset.range size ×ˢ Finset.range size,
      (placedGrid size []
        (((List.range (size * size)).drop preds).take prey)
        ((List.range (size * size)).take preds) c.1 c.2 = PREDATOR) ↔
      (0 ≤ c.1 * size + c.2 ∧ c.1 * size + c.2 < preds) := by
    intro c hc
    simp only [placedGrid, List.not_mem_nil, if_false,
      mem_take_range (show preds ≤ size * size by omega),
      mem_take_drop_range h]
    split_ifs with h1 h2
    · exact iff_of_false (by decide) (by omega)
    · exact iff_of_true rfl (by omega)
    · exact iff_of_false (by decide) (by omega)
  rw [Finset.filter_congr H, card_flat_band size 0 preds (by omega)]
  omega

/-- Counting the prey placed along the identity permutation: the prey slice
fills the flat positions `[preds, preds + prey)`. -/
theorem countCells_placedGrid_prey (size prey preds : Nat)
    (h : preds + prey ≤ size * size) :
    countCells size
      (placedGrid size []
        (((List.range (size * size)).drop preds).take prey)
        ((List.range (size * size)).take preds)) PREY = prey := by
  unfold countCells
  have H : ∀ c ∈ Finset.range size ×ˢ Finset.range size,
      (placedGrid size []
        (((List.range (size * size)).drop preds).take prey)
        ((List.range (size * size)).take preds) c.1 c.2 = PREY) ↔
      (preds ≤ c.1 * size + c.2 ∧ c.1 * size + c.2 < preds + prey) := by
    intro c hc
    simp only [placedGrid, List.not_mem_nil, if_false,
      mem_take_range (show preds ≤ size * size by omega),
      mem_take_drop_range h]
    split_ifs with h1 h2
    · exact iff_of_true rfl h1
    · exact iff_of_false (by decide) (by omega)
    · exact iff_of_false (by decide) (by omega)
  rw [Finset.filter_congr H, card_flat_band size preds (preds + prey) (by omega)]
  omega

/-- When the permutation is the identity `List.range (size * size)`, the
substrate probability is `0` and the requested counts fit in the grid, the
placement phase of `initialize_grid` places exactly the requested counts and
leaves the adjustment report untouched. -/
theorem placementPhase_exact (size prey preds : Nat) (adjIn : AdjustmentInfo)
    (h : preds + prey ≤ size * size) :
    placementPhase size prey preds 0 adjIn (List.range (size * size)) =
      { grid := placedGrid size []
          (((List.range (size * size)).drop preds).take prey)
          ((List.range (size * size)).take preds)
        adj := adjIn } := by
  have hminp : min preds (size * size) = preds := Nat.min_eq_left (by omega)
  have hminy : min prey (size * size - preds) = prey :=
    Nat.min_eq_left (by omega)
  simp only [placementPhase, hminp, hminy, lt_self_iff_false, false_and,
    if_false, ite_false]
  rw [countCells_placedGrid_pred size prey preds h,
    countCells_placedGrid_prey size prey preds h]
  rw [if_neg (by simp)]

/-- The density cap applied by `initialize_grid`: 30% of the cells for
`size >= 1000`, 40% for `800 <= size < 1000`, 80% otherwise. -/
def densityCap (size : Nat) : ℚ :=
  if 800 ≤ size then (if 1000 ≤ size then 3/10 else 4/10) else 8/10

/-- `max_entities = int(total_cells * max_density)`: the clamped total
entity budget. -/
def clampedMax (size : Nat) : Nat :=
  (pyInt (((size * size : Nat) : ℚ) * densityCap size)).toNat

/-- `adjusted_prey = int(max_entities * ratio)` with `ratio` the requested
prey fraction (`0.5` when nothing was requested). -/
def clampedPrey (size prey preds : Nat) : Nat :=
  (pyInt (((clampedMax size : Nat) : ℚ) *
    (if 0 < prey + preds then (prey : ℚ) / ((prey + preds : Nat) : ℚ)
     else 1/2))).toNat

/-- For `800 <= size < 1000` the density cap is 40% of the cells; requests at
or below that cap (with substrate probability at most 0.2) pass the clamp
phase completely unchanged. -/
theorem clampPhase_large_no_clamp (size prey preds : Nat) (subProb : ℚ)
    (h8 : 800 ≤ size) (h10 : size < 1000)
    (hden : ((prey + preds : Nat) : ℚ) ≤ ((size * size : Nat) : ℚ) * (4/10))
    (hsub : subProb ≤ 2/10) :
    clampPhase size prey preds subProb =
      { prey := prey, predators := preds, substrate_prob := subProb,
        adj := { values_adjusted := false, original_prey := prey,
                 original_predators := preds,
                 original_substrate_prob := subProb,
                 adjusted_prey := none, adjusted_predators := none,
                 adjusted_substrate_prob := none,
                 actual_predator_count := none, actual_prey_count := none,
                 actual_substrate_count := none, reason := "" } } := by
  simp only [clampPhase]
  rw [if_pos h8, if_neg (show ¬ 1000 ≤ size by omega),
    if_neg (not_lt.mpr hden), if_neg (not_lt.mpr hsub)]

/-- Whenever the requested total exceeds the density cap, `clampPhase`
splits the budget as: prey = floor(budget × prey-fraction), predators = the
remainder; it flips `values_adjusted`, keeps the original values, stores the
adjusted counts, and writes a nonempty reason. -/
theorem clampPhase_clamped (size prey preds : Nat) (subProb : ℚ)
    (hden : ((size * size : Nat) : ℚ) * densityCap size
      < ((prey + preds : Nat) : ℚ)) :
    (clampPhase size prey preds subProb).adj.values_adjusted = true ∧
    (clampPhase size prey preds subProb).adj.original_prey = prey ∧
    (clampPhase size prey preds subProb).adj.original_predators = preds ∧
    (clampPhase size prey preds subProb).adj.adjusted_prey
      = some (clampedPrey size prey preds) ∧
    (clampPhase size prey preds subProb).adj.adjusted_predators
      = some (clampedMax size - clampedPrey size prey preds) ∧
    0 < (clampPhase size prey preds subProb).adj.reason.length := by
  simp only [clampPhase]
  by_cases h8 : 800 ≤ size
  · rw [densityCap, if_pos h8] at hden
    rw [if_pos h8, if_pos hden]
    have hmax : clampedMax size
        = (pyInt (((size * size : Nat) : ℚ) *
            (if 1000 ≤ size then (3:ℚ)/10 else 4/10))).toNat := by
      rw [clampedMax, densityCap, if_pos h8]
    have hprey : clampedPrey size prey preds
        = (pyInt ((((pyInt (((size * size : Nat) : ℚ) *
              (if 1000 ≤ size then (3:ℚ)/10 else 4/10))).toNat : Nat) : ℚ) *
            (if 0 < prey + preds then (prey : ℚ) / ((prey + preds : Nat) : ℚ)
             else 1/2))).toNat := by
      rw [clampedPrey, hmax]
    by_cases hs : 2/10 < subProb
    · rw [if_pos hs]
      refine ⟨rfl, rfl, rfl, ?_, ?_, ?_⟩
      · rw [hprey]
      · rw [hprey, hmax]
      · simp only [String.length_append]
        have : 0 < ("Grid too large (" : String).length := by decide
        omega
    · rw [if_neg hs]
      refine ⟨rfl, rfl, rfl, ?_, ?_, ?_⟩
      · rw [hprey]
      · rw [hprey, hmax]
      · simp only [String.length_append]
        have : 0 < ("Grid too large (" : String).length := by decide
        omega
  · rw [densityCap, if_neg h8] at hden
    rw [if_neg h8, if_pos hden]
    have hmax : clampedMax size
        = (pyInt (((size * size : Nat) : ℚ) * (8/10))).toNat := by
      rw [clampedMax, densityCap, if_neg h8]
    have hprey : clampedPrey size prey preds
        = (pyInt ((((pyInt (((size * size : Nat) : ℚ) * (8/10))).toNat
              : Nat) : ℚ) *
            (if 0 < prey + preds then (prey : ℚ) / ((prey + preds : Nat) : ℚ)
             else 1/2))).toNat := by
      rw [clampedPrey, hmax]
    refine ⟨rfl, rfl, rfl, ?_, ?_, ?_⟩
    · rw [hprey]
    · rw [hprey, hmax]
    · show 0 < ("Too many entities for grid size. Reduced to 80% of total cells."
        : String).length
      decide

/-- What the placement phase may still do to the adjustment report: it never
touches the original or the adjusted values, it can only switch
`values_adjusted` on (never off), and it only ever appends to the reason. -/
def AdjExtends (a b : AdjustmentInfo) : Prop :=
  b.original_prey = a.original_prey ∧
  b.original_predators = a.original_predators ∧
  b.adjusted_prey = a.adjusted_prey ∧
  b.adjusted_predators = a.adjusted_predators ∧
  (a.values_adjusted = true → b.values_adjusted = true) ∧
  a.reason.length ≤ b.reason.length

/-- The placement phase only extends the adjustment report. -/
theorem placementPhase_extends (size prey preds : Nat) (subProb : ℚ)
    (adjIn : AdjustmentInfo) (perm : List Nat) :
    AdjExtends adjIn (placementPhase size prey preds subProb adjIn perm).adj := by
  unfold AdjExtends placementPhase
  dsimp only
  repeat' split
  all_goals
    exact ⟨rfl, rfl, rfl, rfl, fun h => by first | rfl | exact h,
      by simp [String.length_append] <;> omega⟩

/-- The identity shuffle for the size-900 scenario: all `810000 = 900 * 900`
flat indices in order.  (Kept behind a name so that the 810000-element list
is never forced during unification.) -/
def perm900 : List Nat := List.range 810000

/-- Projection of a literal `InitResult` (used as a rewrite so the grid
component is never forced during unification). -/
theorem InitResult.grid_mk (g : Grid) (a : AdjustmentInfo) :
    (InitResult.mk g a).grid = g := rfl

/-- The concrete size-900 run: validation passes, the clamp phase leaves the
request untouched, and the identity-permutation placement fills exactly the
requested counts, so the reconciliation pass records nothing. -/
theorem initGrid_900_spec :
    initGrid 900 5000 1000 0 perm900 =
      .ok { grid := placedGrid 900 []
              ((perm900.drop 1000).take 5000)
              (perm900.take 1000)
            adj := { values_adjusted := false, original_prey := 5000,
                     original_predators := 1000, original_substrate_prob := 0,
                     adjusted_prey := none, adjusted_predators := none,
                     adjusted_substrate_prob := none,
                     actual_predator_count := none, actual_prey_count := none,
                     actual_substrate_count := none, reason := "" } } := by
  have hperm : List.range (900 * 900) = perm900 := by norm_num [perm900]
  have hc := clampPhase_large_no_clamp 900 5000 1000 0 (by norm_num)
    (by norm_num) (by norm_num) (by norm_num)
  have hp := placementPhase_exact 900 5000 1000
    { values_adjusted := false, original_prey := 5000,
      original_predators := 1000, original_substrate_prob := 0,
      adjusted_prey := none, adjusted_predators := none,
      adjusted_substrate_prob := none, actual_predator_count := none,
      actual_prey_count := none, actual_substrate_count := none,
      reason := "" } (by norm_num)
  rw [hperm] at hp
  simp only [initGrid]
  rw [if_neg (show (900 : Nat) ≠ 0 by norm_num),
    if_neg (not_not_intro ⟨by norm_num, by norm_num⟩), hc]
  exact congrArg Except.ok hp

/-- C4 counterexample: initializing a 900×900 grid with 5000 prey and 1000
predators requested (substrate probability 0, identity shuffle) leaves
`values_adjusted = false`: the initializer records no adjustment at all,
contradicting the claimed `values_adjusted == true`. -/
theorem size900_request_not_adjusted :
    ∃ r, initGrid 900 5000 1000 0 perm900 = .ok r ∧
      r.adj.values_adjusted = false :=
  ⟨_, initGrid_900_spec, rfl⟩

/-- C4 (amended): for size 900 the cap branch taken is the 40% one
(`densityCap 900 = 4/10`, not 30%); the requested 1000 predators and 5000
prey (6000 entities, well below the 324000 budget) are not clamped: the
returned report keeps `values_adjusted = false` with no adjusted values and
an empty reason, and exactly the requested counts are placed. -/
theorem size900_under_cap_no_adjustment :
    densityCap 900 = 4/10 ∧
    ∃ r, initGrid 900 5000 1000 0 perm900 = .ok r ∧
      r.adj.values_adjusted = false ∧ r.adj.adjusted_prey = none ∧
      r.adj.adjusted_predators = none ∧ r.adj.reason = "" ∧
      countCells 900 r.grid PREDATOR = 1000 ∧
      countCells 900 r.grid PREY = 5000 := by
  have hperm : List.range (900 * 900) = perm900 := by norm_num [perm900]
  refine ⟨by norm_num [densityCap], _, initGrid_900_spec, rfl, rfl, rfl, rfl,
    ?_, ?_⟩
  · have hcp := countCells_placedGrid_pred 900 5000 1000 (by norm_num)
    rw [hperm] at hcp
    rw [InitResult.grid_mk]
    exact hcp
  · have hcy := countCells_placedGrid_prey 900 5000 1000 (by norm_num)
    rw [hperm] at hcy
    rw [InitResult.grid_mk]
    exact hcy

set_option maxRecDepth 40000 in
/-- C5 counterexample: on a 3×3 grid with 5 prey and 5 predators requested,
the budget is `int(9 * 0.8) = 7` and the ratio is the prey fraction `5/10`;
the code assigns the floor share `int(7 * (5/10)) = 3` to the *prey* and the
remainder 4 to the predators, whereas the claimed predator share
`floor(cap × ratio)` equals 3, not the recorded 4. -/
theorem clamp_predator_share_is_remainder_not_floor :
    ((initGrid 3 5 5 0 (List.range 9)).toOption.map (fun r =>
        (r.adj.values_adjusted, r.adj.adjusted_prey, r.adj.adjusted_predators)))
      = some (true, some 3, some 4) ∧
    (pyInt ((((pyInt (((3 * 3 : Nat) : ℚ) * (8/10))).toNat : Nat) : ℚ)
        * ((5 : ℚ) / ((5 + 5 : Nat) : ℚ)))).toNat = 3 := by
  constructor
  · decide
  · decide

/-- C5 (amended): whenever the requested predator+prey total exceeds the
density cap, the budget `max_entities` is split with the *prey* share
computed as `floor(budget * ratio)` (`ratio` being the requested prey
fraction) and the *predators* receiving the remainder; the clamp is recorded
in the report returned by the initializer: `values_adjusted = true`, the
original values are kept, the adjusted prey/predator counts are stored, and
the reason string is nonempty. -/
theorem clamp_splits_prey_floor_predators_remainder
    (size prey preds : Nat) (subProb : ℚ) (perm : List Nat)
    (hsz : size ≠ 0) (h0 : 0 ≤ subProb) (h1 : subProb ≤ 1)
    (hden : ((size * size : Nat) : ℚ) * densityCap size
      < ((prey + preds : Nat) : ℚ)) :
    ∃ r, initGrid size prey preds subProb perm = .ok r ∧
      r.adj.values_adjusted = true ∧
      r.adj.original_prey = prey ∧
      r.adj.original_predators = preds ∧
      r.adj.adjusted_prey = some (clampedPrey size prey preds) ∧
      r.adj.adjusted_predators
        = some (clampedMax size - clampedPrey size prey preds) ∧
      r.adj.reason ≠ "" := by
  obtain ⟨hva, hop, hopd, hap, hapd, hlen⟩ :=
    clampPhase_clamped size prey preds subProb hden
  obtain ⟨e1, e2, e3, e4, e5, e6⟩ :=
    placementPhase_extends size (clampPhase size prey preds subProb).prey
      (clampPhase size prey preds subProb).predators
      (clampPhase size prey preds subProb).substrate_prob
      (clampPhase size prey preds subProb).adj perm
  refine ⟨placementPhase size (clampPhase size prey preds subProb).prey
      (clampPhase size prey preds subProb).predators
      (clampPhase size prey preds subProb).substrate_prob
      (clampPhase size prey preds subProb).adj perm, ?_, e5 hva,
    e1.trans hop, e2.trans hopd, e3.trans hap, e4.trans hapd, ?_⟩
  · simp only [initGrid]
    rw [if_neg hsz, if_neg (not_not_intro ⟨h0, h1⟩)]
  · intro habs
    have hlt := lt_of_lt_of_le hlen e6
    rw [habs] at hlt
    exact absurd hlt (by decide)

/-- Witness for C5's amended claim at size 3 with 5 prey and 5 predators
requested. -/
theorem clamp_splits_prey_floor_predators_remainder_witness :
    ∃ r, initGrid 3 5 5 0 [] = .ok r ∧
      r.adj.values_adjusted = true ∧
      r.adj.original_prey = 5 ∧
      r.adj.original_predators = 5 ∧
      r.adj.adjusted_prey = some (clampedPrey 3 5 5) ∧
      r.adj.adjusted_predators = some (clampedMax 3 - clampedPrey 3 5 5) ∧
      r.adj.reason ≠ "" :=
  clamp_splits_prey_floor_predators_remainder 3 5 5 0 [] (by decide)
    (by norm_num) (by norm_num) (by norm_num [densityCap])
